import Mathlib

/-!
Verification of the EduVoice server against its specification.

The definitions below are a shallow embedding of the TypeScript source:
  * `shared/schema.ts`          : the entity records (users, materials, ...)
  * `server/storage.ts`         : `MemStorage` (keyed maps) and `DatabaseStorage`
                                  (relational rows via Drizzle)
  * `server/routes.ts`          : the Express REST handlers
  * `server/auth.ts`            : `hashPassword`, `comparePasswords`, the
                                  register and login handlers
  * `lib/openrouter.ts`         : `OpenRouterClient.chat` error behaviour
  * `api/quizzes/generate.ts`   : the standalone serverless quiz generator

JavaScript `Map`s are modelled as association lists with `Map.set`/`Map.get`/
`Map.delete` semantics (insertion order preserved, `set` replaces in place).
Database tables are modelled as row lists; `insert ... returning` appends,
`select ... where eq` filters in storage order.  `new Date()` values and
`randomUUID()` results are passed in as explicit arguments.  The scrypt key
derivation (an external crypto primitive) is an abstract function producing
the 64-byte buffer requested at the call site.
-/

/-- A JSON value as stored in the `jsonb` columns (`metadata`, `nodes`,
`materialIds`).  Only its JavaScript truthiness is ever inspected by the
server code. -/
inductive Json where
  | null : Json
  | bool (b : Bool) : Json
  | num (n : Int) : Json
  | str (s : String) : Json
  | arr (xs : List Json) : Json
  | obj (fields : List (String × Json)) : Json
deriving Repr

mutual

def Json.decEq : (a b : Json) → Decidable (a = b)
  | .null, .null => isTrue rfl
  | .bool a, .bool b =>
    if h : a = b then isTrue (by rw [h]) else isFalse (fun hc => h (Json.bool.inj hc))
  | .num a, .num b =>
    if h : a = b then isTrue (by rw [h]) else isFalse (fun hc => h (Json.num.inj hc))
  | .str a, .str b =>
    if h : a = b then isTrue (by rw [h]) else isFalse (fun hc => h (Json.str.inj hc))
  | .arr xs, .arr ys =>
    match Json.decEqList xs ys with
    | isTrue h => isTrue (by rw [h])
    | isFalse h => isFalse (fun hc => h (Json.arr.inj hc))
  | .obj xs, .obj ys =>
    match Json.decEqObj xs ys with
    | isTrue h => isTrue (by rw [h])
    | isFalse h => isFalse (fun hc => h (Json.obj.inj hc))
  | .null, .bool _ | .null, .num _ | .null, .str _ | .null, .arr _ | .null, .obj _
  | .bool _, .null | .bool _, .num _ | .bool _, .str _ | .bool _, .arr _ | .bool _, .obj _
  | .num _, .null | .num _, .bool _ | .num _, .str _ | .num _, .arr _ | .num _, .obj _
  | .str _, .null | .str _, .bool _ | .str _, .num _ | .str _, .arr _ | .str _, .obj _
  | .arr _, .null | .arr _, .bool _ | .arr _, .num _ | .arr _, .str _ | .arr _, .obj _
  | .obj _, .null | .obj _, .bool _ | .obj _, .num _ | .obj _, .str _ | .obj _, .arr _ =>
    isFalse (by intro hc; exact Json.noConfusion hc)

def Json.decEqList : (xs ys : List Json) → Decidable (xs = ys)
  | [], [] => isTrue rfl
  | [], _ :: _ => isFalse (by intro hc; exact List.noConfusion hc)
  | _ :: _, [] => isFalse (by intro hc; exact List.noConfusion hc)
  | x :: xs, y :: ys =>
    match Json.decEq x y with
    | isFalse h => isFalse (fun hc => h (List.head_eq_of_cons_eq hc))
    | isTrue h =>
      match Json.decEqList xs ys with
      | isTrue h2 => isTrue (by rw [h, h2])
      | isFalse h2 => isFalse (fun hc => h2 (List.tail_eq_of_cons_eq hc))

def Json.decEqObj : (xs ys : List (String × Json)) → Decidable (xs = ys)
  | [], [] => isTrue rfl
  | [], _ :: _ => isFalse (by intro hc; exact List.noConfusion hc)
  | _ :: _, [] => isFalse (by intro hc; exact List.noConfusion hc)
  | (k, x) :: xs, (l, y) :: ys =>
    if hk : k = l then
      match Json.decEq x y with
      | isFalse h =>
        isFalse (fun hc => h (congrArg Prod.snd (List.head_eq_of_cons_eq hc)))
      | isTrue h =>
        match Json.decEqObj xs ys with
        | isTrue h2 => isTrue (by rw [hk, h, h2])
        | isFalse h2 => isFalse (fun hc => h2 (List.tail_eq_of_cons_eq hc))
    else
      isFalse (fun hc => hk (congrArg Prod.fst (List.head_eq_of_cons_eq hc)))

end

instance : DecidableEq Json := Json.decEq

/-- JavaScript truthiness of a JSON value (`null`, `false`, `0`, `""` are
falsy; arrays and objects are always truthy). -/
def Json.truthy : Json → Bool
  | .null => false
  | .bool b => b
  | .num n => n != 0
  | .str s => s != ""
  | .arr _ => true
  | .obj _ => true

/-- `x || null` on an optional string (JS: the empty string is falsy). -/
def jsOrNoneStr (o : Option String) : Option String :=
  match o with
  | some s => if s = "" then none else some s
  | none => none

/-- `x || d` on an optional string (JS: the empty string is falsy). -/
def jsOrDefaultStr (o : Option String) (d : String) : String :=
  match o with
  | some s => if s = "" then d else s
  | none => d

/-- `x || null` on an optional JSON value. -/
def jsOrNoneJson (o : Option Json) : Option Json :=
  match o with
  | some j => if j.truthy then some j else none
  | none => none

/-- `s.startsWith(pre)` as a character-list prefix test. -/
def strStartsWith (s pre : String) : Bool :=
  pre.data.isPrefixOf s.data

def splitOnCharAux (sep : Char) : List Char → List Char → List String
  | [], acc => [String.mk acc.reverse]
  | c :: cs, acc =>
    if c = sep then String.mk acc.reverse :: splitOnCharAux sep cs []
    else splitOnCharAux sep cs (c :: acc)

/-- `s.split(sep)` for a one-character separator (empty pieces preserved,
exactly as in JavaScript). -/
def splitOnChar (sep : Char) (s : String) : List String :=
  splitOnCharAux sep s.data []

/-! ## Entity records (`shared/schema.ts`) -/

/-- Row of the `users` table (plus the `role` field that `MemStorage` and
`requireRole` handle, defaulted to `"student"`). -/
structure User where
  id : String
  username : String
  password : String
  email : String
  role : String
  plan : String
  language : String
  createdAt : Nat
deriving Repr, DecidableEq

/-- Row of the `materials` table.  `content` and `metadata` are nullable. -/
structure Material where
  id : String
  userId : String
  filename : String
  type : String
  content : Option String
  metadata : Option Json
  uploadedAt : Nat
deriving Repr, DecidableEq

/-- Row of the `conversations` table. -/
structure Conversation where
  id : String
  userId : String
  title : Option String
  createdAt : Nat
deriving Repr, DecidableEq

/-- Row of the `messages` table. -/
structure Message where
  id : String
  conversationId : String
  role : String
  content : String
  audioUrl : Option String
  materialIds : Option Json
  timestamp : Nat
deriving Repr, DecidableEq

/-- Row of the `mind_maps` table. -/
structure MindMap where
  id : String
  userId : String
  title : String
  nodes : Json
  materialIds : Option Json
  createdAt : Nat
  updatedAt : Nat
deriving Repr, DecidableEq

/-- A quiz question as produced by the generator and consumed by the attempt
handler (`id`, `type`, `question`, `options`, `correctAnswer`,
`explanation`). -/
structure Question where
  id : String
  type : String
  question : String
  options : List String
  correctAnswer : String
  explanation : String
deriving Repr, DecidableEq

/-- Row of the `quizzes` table; `questions` is the decoded `jsonb` array. -/
structure Quiz where
  id : String
  userId : String
  title : String
  questions : List Question
  materialIds : Option Json
  difficulty : String
  createdAt : Nat
deriving Repr, DecidableEq

/-- One entry of the `results` array the attempt handler builds per
question. -/
structure AttemptResult where
  questionId : String
  userAnswer : Option String
  correctAnswer : String
  isCorrect : Bool
  explanation : String
deriving Repr, DecidableEq

/-- Row of the `quiz_attempts` table; `answers` stores the handler's
`results` array. -/
structure QuizAttempt where
  id : String
  userId : String
  quizId : String
  answers : List AttemptResult
  score : Nat
  totalQuestions : Nat
  completedAt : Nat
deriving Repr, DecidableEq

/-! ## Insert payloads (the `Insert*` zod schemas, plus `userId` where the
route attaches it) -/

structure InsertUser where
  username : String
  password : String
  email : String
  role : Option String
  plan : Option String
  language : Option String
deriving Repr, DecidableEq

structure InsertMaterial where
  filename : String
  type : String
  content : Option String
  metadata : Option Json
  userId : String
deriving Repr, DecidableEq

structure InsertConversation where
  title : Option String
  userId : String
deriving Repr, DecidableEq

structure InsertMessage where
  conversationId : String
  role : String
  content : String
  audioUrl : Option String
  materialIds : Option Json
deriving Repr, DecidableEq

structure InsertMindMap where
  title : String
  nodes : Json
  materialIds : Option Json
  userId : String
deriving Repr, DecidableEq

structure InsertQuiz where
  title : String
  questions : List Question
  materialIds : Option Json
  difficulty : Option String
  userId : String
deriving Repr, DecidableEq

structure InsertQuizAttempt where
  quizId : String
  answers : List AttemptResult
  score : Nat
  totalQuestions : Nat
  userId : String
deriving Repr, DecidableEq

/-- The body accepted by `PUT /api/mindmaps/:id`
(`z.object({ title: z.string().optional(), nodes: z.any().optional() })`). -/
structure MindMapUpdates where
  title : Option String
  nodes : Option Json
deriving Repr, DecidableEq

/-! ## JavaScript `Map` model -/

/-- `Map.get`. -/
def mapGet {α : Type} (m : List (String × α)) (k : String) : Option α :=
  (m.find? (fun p => p.1 = k)).map (·.2)

/-- `Map.set`: replaces the entry in place if the key is present, otherwise
appends (JS maps preserve insertion order). -/
def mapSet {α : Type} (m : List (String × α)) (k : String) (v : α) :
    List (String × α) :=
  if (m.find? (fun p => p.1 = k)).isSome then
    m.map (fun p => if p.1 = k then (k, v) else p)
  else
    m ++ [(k, v)]

/-- `Map.delete`: removes the entry with the key and reports whether it was
present. -/
def mapDelete {α : Type} (m : List (String × α)) (k : String) :
    List (String × α) × Bool :=
  ((m.filter (fun p => p.1 ≠ k)), (m.find? (fun p => p.1 = k)).isSome)

/-- `Array.from(map.values())`. -/
def mapValues {α : Type} (m : List (String × α)) : List α :=
  m.map (·.2)

/-- Stable ascending sort by message timestamp, mirroring
`.sort((a, b) => a.timestamp - b.timestamp)` (JS `Array.sort` is stable). -/
def sortByTimestamp : List Message → List Message
  | [] => []
  | m :: ms => insertByTimestamp m (sortByTimestamp ms)
where
  insertByTimestamp (m : Message) : List Message → List Message
    | [] => [m]
    | n :: ns =>
      if n.timestamp < m.timestamp then n :: insertByTimestamp m ns
      else m :: n :: ns

/-! ## `MemStorage` (server/storage.ts) -/

/-- The in-memory implementation: one keyed `Map` per entity. -/
structure MemStorage where
  users : List (String × User)
  materials : List (String × Material)
  conversations : List (String × Conversation)
  messages : List (String × Message)
  mindMaps : List (String × MindMap)
  quizzes : List (String × Quiz)
  quizAttempts : List (String × QuizAttempt)
deriving Repr, DecidableEq

/-- A freshly constructed `MemStorage` (all maps empty). -/
def memEmpty : MemStorage :=
  { users := [], materials := [], conversations := [], messages := [],
    mindMaps := [], quizzes := [], quizAttempts := [] }

def MemStorage.getUser (s : MemStorage) (id : String) : Option User :=
  mapGet s.users id

def MemStorage.getUserByUsername (s : MemStorage) (username : String) :
    Option User :=
  (mapValues s.users).find? (fun u => u.username = username)

def MemStorage.getUserByEmail (s : MemStorage) (email : String) : Option User :=
  (mapValues s.users).find? (fun u => u.email = email)

/-- `createUser`: `id = randomUUID()` and `createdAt = new Date()` are the
`rid`/`now` arguments; `role`, `plan` and `language` get `||`-defaults. -/
def MemStorage.createUser (s : MemStorage) (rid : String) (now : Nat)
    (insertUser : InsertUser) : User × MemStorage :=
  let user : User :=
    { id := rid, username := insertUser.username, password := insertUser.password,
      email := insertUser.email,
      role := jsOrDefaultStr insertUser.role "student",
      plan := jsOrDefaultStr insertUser.plan "free",
      language := jsOrDefaultStr insertUser.language "en",
      createdAt := now }
  (user, { s with users := mapSet s.users rid user })

def MemStorage.updateUser (s : MemStorage) (id : String)
    (updates : User → User) : Option User × MemStorage :=
  match mapGet s.users id with
  | none => (none, s)
  | some user =>
    let updatedUser := updates user
    (some updatedUser, { s with users := mapSet s.users id updatedUser })

def MemStorage.getMaterial (s : MemStorage) (id : String) : Option Material :=
  mapGet s.materials id

def MemStorage.getMaterialsByUser (s : MemStorage) (userId : String) :
    List Material :=
  (mapValues s.materials).filter (fun m => m.userId = userId)

/-- `createMaterial`: `content` and `metadata` are normalised with
`material.content || null` / `material.metadata || null`. -/
def MemStorage.createMaterial (s : MemStorage) (rid : String) (now : Nat)
    (material : InsertMaterial) : Material × MemStorage :=
  let newMaterial : Material :=
    { id := rid, userId := material.userId, filename := material.filename,
      type := material.type,
      content := jsOrNoneStr material.content,
      metadata := jsOrNoneJson material.metadata,
      uploadedAt := now }
  (newMaterial, { s with materials := mapSet s.materials rid newMaterial })

def MemStorage.deleteMaterial (s : MemStorage) (id : String) :
    Bool × MemStorage :=
  let (materials', existed) := mapDelete s.materials id
  (existed, { s with materials := materials' })

def MemStorage.getConversation (s : MemStorage) (id : String) :
    Option Conversation :=
  mapGet s.conversations id

def MemStorage.getConversationsByUser (s : MemStorage) (userId : String) :
    List Conversation :=
  (mapValues s.conversations).filter (fun c => c.userId = userId)

def MemStorage.createConversation (s : MemStorage) (rid : String) (now : Nat)
    (conversation : InsertConversation) : Conversation × MemStorage :=
  let newConversation : Conversation :=
    { id := rid, userId := conversation.userId,
      title := jsOrNoneStr conversation.title, createdAt := now }
  (newConversation,
   { s with conversations := mapSet s.conversations rid newConversation })

/-- `deleteConversation` also deletes every message whose `conversationId`
matches, then removes the conversation itself. -/
def MemStorage.deleteConversation (s : MemStorage) (id : String) :
    Bool × MemStorage :=
  let messages' := s.messages.filter (fun p => p.2.conversationId ≠ id)
  let (conversations', existed) := mapDelete s.conversations id
  (existed, { s with messages := messages', conversations := conversations' })

def MemStorage.getMessage (s : MemStorage) (id : String) : Option Message :=
  mapGet s.messages id

def MemStorage.getMessagesByConversation (s : MemStorage)
    (conversationId : String) : List Message :=
  sortByTimestamp
    ((mapValues s.messages).filter (fun m => m.conversationId = conversationId))

def MemStorage.createMessage (s : MemStorage) (rid : String) (now : Nat)
    (message : InsertMessage) : Message × MemStorage :=
  let newMessage : Message :=
    { id := rid, conversationId := message.conversationId, role := message.role,
      content := message.content,
      audioUrl := jsOrNoneStr message.audioUrl,
      materialIds := jsOrNoneJson message.materialIds,
      timestamp := now }
  (newMessage, { s with messages := mapSet s.messages rid newMessage })

def MemStorage.getMindMap (s : MemStorage) (id : String) : Option MindMap :=
  mapGet s.mindMaps id

def MemStorage.getMindMapsByUser (s : MemStorage) (userId : String) :
    List MindMap :=
  (mapValues s.mindMaps).filter (fun m => m.userId = userId)

def MemStorage.createMindMap (s : MemStorage) (rid : String) (now : Nat)
    (mindMap : InsertMindMap) : MindMap × MemStorage :=
  let newMindMap : MindMap :=
    { id := rid, userId := mindMap.userId, title := mindMap.title,
      nodes := mindMap.nodes,
      materialIds := jsOrNoneJson mindMap.materialIds,
      createdAt := now, updatedAt := now }
  (newMindMap, { s with mindMaps := mapSet s.mindMaps rid newMindMap })

/-- `updateMindMap`: `{ ...mindMap, ...updates, updatedAt: new Date() }` with
`updates` being the `PUT /api/mindmaps/:id` body (optional `title`/`nodes`). -/
def MemStorage.updateMindMap (s : MemStorage) (now : Nat) (id : String)
    (updates : MindMapUpdates) : Option MindMap × MemStorage :=
  match mapGet s.mindMaps id with
  | none => (none, s)
  | some mindMap =>
    let updatedMindMap :=
      { mindMap with
        title := updates.title.getD mindMap.title,
        nodes := updates.nodes.getD mindMap.nodes,
        updatedAt := now }
    (some updatedMindMap,
     { s with mindMaps := mapSet s.mindMaps id updatedMindMap })

def MemStorage.deleteMindMap (s : MemStorage) (id : String) :
    Bool × MemStorage :=
  let (mindMaps', existed) := mapDelete s.mindMaps id
  (existed, { s with mindMaps := mindMaps' })

def MemStorage.getQuiz (s : MemStorage) (id : String) : Option Quiz :=
  mapGet s.quizzes id

def MemStorage.getQuizzesByUser (s : MemStorage) (userId : String) :
    List Quiz :=
  (mapValues s.quizzes).filter (fun q => q.userId = userId)

def MemStorage.createQuiz (s : MemStorage) (rid : String) (now : Nat)
    (quiz : InsertQuiz) : Quiz × MemStorage :=
  let newQuiz : Quiz :=
    { id := rid, userId := quiz.userId, title := quiz.title,
      questions := quiz.questions,
      materialIds := jsOrNoneJson quiz.materialIds,
      difficulty := jsOrDefaultStr quiz.difficulty "medium",
      createdAt := now }
  (newQuiz, { s with quizzes := mapSet s.quizzes rid newQuiz })

def MemStorage.deleteQuiz (s : MemStorage) (id : String) : Bool × MemStorage :=
  let (quizzes', existed) := mapDelete s.quizzes id
  (existed, { s with quizzes := quizzes' })

def MemStorage.getQuizAttempt (s : MemStorage) (id : String) :
    Option QuizAttempt :=
  mapGet s.quizAttempts id

def MemStorage.getQuizAttemptsByUser (s : MemStorage) (userId : String) :
    List QuizAttempt :=
  (mapValues s.quizAttempts).filter (fun a => a.userId = userId)

def MemStorage.createQuizAttempt (s : MemStorage) (rid : String) (now : Nat)
    (attempt : InsertQuizAttempt) : QuizAttempt × MemStorage :=
  let newAttempt : QuizAttempt :=
    { id := rid, userId := attempt.userId, quizId := attempt.quizId,
      answers := attempt.answers, score := attempt.score,
      totalQuestions := attempt.totalQuestions, completedAt := now }
  (newAttempt, { s with quizAttempts := mapSet s.quizAttempts rid newAttempt })

/-! ## `DatabaseStorage` (server/storage.ts, Drizzle over Postgres)

Each table is a list of rows in storage order.  `select().where(eq(col, v))`
filters; `insert().values(x).returning()` appends a row built from the
supplied values and the column defaults (`gen_random_uuid()` / `now()` are
the `rid`/`now` arguments; absent optional columns become `NULL`, the
`difficulty` column defaults to `"medium"` only when no value is supplied);
`delete().returning()` removes the matching rows and returns them. -/

structure DatabaseStorage where
  users : List User
  materials : List Material
  conversations : List Conversation
  messages : List Message
  mindMaps : List MindMap
  quizzes : List Quiz
  quizAttempts : List QuizAttempt
deriving Repr, DecidableEq

/-- A `DatabaseStorage` over an empty database. -/
def dbEmpty : DatabaseStorage :=
  { users := [], materials := [], conversations := [], messages := [],
    mindMaps := [], quizzes := [], quizAttempts := [] }

def DatabaseStorage.getUser (s : DatabaseStorage) (id : String) : Option User :=
  s.users.find? (fun u => u.id = id)

def DatabaseStorage.getUserByUsername (s : DatabaseStorage) (username : String) :
    Option User :=
  s.users.find? (fun u => u.username = username)

def DatabaseStorage.getUserByEmail (s : DatabaseStorage) (email : String) :
    Option User :=
  s.users.find? (fun u => u.email = email)

def DatabaseStorage.createUser (s : DatabaseStorage) (rid : String) (now : Nat)
    (insertUser : InsertUser) : User × DatabaseStorage :=
  let user : User :=
    { id := rid, username := insertUser.username, password := insertUser.password,
      email := insertUser.email,
      role := insertUser.role.getD "student",
      plan := insertUser.plan.getD "free",
      language := insertUser.language.getD "en",
      createdAt := now }
  (user, { s with users := s.users ++ [user] })

def DatabaseStorage.getMaterial (s : DatabaseStorage) (id : String) :
    Option Material :=
  s.materials.find? (fun m => m.id = id)

def DatabaseStorage.getMaterialsByUser (s : DatabaseStorage) (userId : String) :
    List Material :=
  s.materials.filter (fun m => m.userId = userId)

/-- `createMaterial`: the insert passes `content`/`metadata` through as given
(a present empty string is stored as the empty string; only an absent value
falls back to the `NULL` column default). -/
def DatabaseStorage.createMaterial (s : DatabaseStorage) (rid : String)
    (now : Nat) (material : InsertMaterial) : Material × DatabaseStorage :=
  let newMaterial : Material :=
    { id := rid, userId := material.userId, filename := material.filename,
      type := material.type,
      content := material.content,
      metadata := material.metadata,
      uploadedAt := now }
  (newMaterial, { s with materials := s.materials ++ [newMaterial] })

def DatabaseStorage.deleteMaterial (s : DatabaseStorage) (id : String) :
    Bool × DatabaseStorage :=
  let returned := s.materials.filter (fun m => m.id = id)
  (returned.length > 0,
   { s with materials := s.materials.filter (fun m => m.id ≠ id) })

def DatabaseStorage.getConversation (s : DatabaseStorage) (id : String) :
    Option Conversation :=
  s.conversations.find? (fun c => c.id = id)

def DatabaseStorage.getConversationsByUser (s : DatabaseStorage)
    (userId : String) : List Conversation :=
  s.conversations.filter (fun c => c.userId = userId)

def DatabaseStorage.createConversation (s : DatabaseStorage) (rid : String)
    (now : Nat) (conversation : InsertConversation) :
    Conversation × DatabaseStorage :=
  let newConversation : Conversation :=
    { id := rid, userId := conversation.userId, title := conversation.title,
      createdAt := now }
  (newConversation,
   { s with conversations := s.conversations ++ [newConversation] })

/-- `deleteConversation`: first `delete(messages).where(eq(conversationId))`,
then delete the conversation row and report whether one was returned. -/
def DatabaseStorage.deleteConversation (s : DatabaseStorage) (id : String) :
    Bool × DatabaseStorage :=
  let messages' := s.messages.filter (fun m => m.conversationId ≠ id)
  let returned := s.conversations.filter (fun c => c.id = id)
  (returned.length > 0,
   { s with messages := messages',
            conversations := s.conversations.filter (fun c => c.id ≠ id) })

def DatabaseStorage.getMessage (s : DatabaseStorage) (id : String) :
    Option Message :=
  s.messages.find? (fun m => m.id = id)

def DatabaseStorage.getMessagesByConversation (s : DatabaseStorage)
    (conversationId : String) : List Message :=
  sortByTimestamp
    (s.messages.filter (fun m => m.conversationId = conversationId))

def DatabaseStorage.createMessage (s : DatabaseStorage) (rid : String)
    (now : Nat) (message : InsertMessage) : Message × DatabaseStorage :=
  let newMessage : Message :=
    { id := rid, conversationId := message.conversationId, role := message.role,
      content := message.content, audioUrl := message.audioUrl,
      materialIds := message.materialIds, timestamp := now }
  (newMessage, { s with messages := s.messages ++ [newMessage] })

def DatabaseStorage.getMindMap (s : DatabaseStorage) (id : String) :
    Option MindMap :=
  s.mindMaps.find? (fun m => m.id = id)

def DatabaseStorage.getMindMapsByUser (s : DatabaseStorage) (userId : String) :
    List MindMap :=
  s.mindMaps.filter (fun m => m.userId = userId)

def DatabaseStorage.createMindMap (s : DatabaseStorage) (rid : String)
    (now : Nat) (mindMap : InsertMindMap) : MindMap × DatabaseStorage :=
  let newMindMap : MindMap :=
    { id := rid, userId := mindMap.userId, title := mindMap.title,
      nodes := mindMap.nodes, materialIds := mindMap.materialIds,
      createdAt := now, updatedAt := now }
  (newMindMap, { s with mindMaps := s.mindMaps ++ [newMindMap] })

/-- `updateMindMap`: `update(mindMaps).set({ ...updates, updatedAt: new
Date() }).where(eq(id)).returning()`; returns the updated row if one
matched. -/
def DatabaseStorage.updateMindMap (s : DatabaseStorage) (now : Nat)
    (id : String) (updates : MindMapUpdates) :
    Option MindMap × DatabaseStorage :=
  let apply := fun (mindMap : MindMap) =>
    { mindMap with
      title := updates.title.getD mindMap.title,
      nodes := updates.nodes.getD mindMap.nodes,
      updatedAt := now }
  let rows' := s.mindMaps.map (fun m => if m.id = id then apply m else m)
  ((s.mindMaps.find? (fun m => m.id = id)).map apply,
   { s with mindMaps := rows' })

def DatabaseStorage.deleteMindMap (s : DatabaseStorage) (id : String) :
    Bool × DatabaseStorage :=
  let returned := s.mindMaps.filter (fun m => m.id = id)
  (returned.length > 0,
   { s with mindMaps := s.mindMaps.filter (fun m => m.id ≠ id) })

def DatabaseStorage.getQuiz (s : DatabaseStorage) (id : String) : Option Quiz :=
  s.quizzes.find? (fun q => q.id = id)

def DatabaseStorage.getQuizzesByUser (s : DatabaseStorage) (userId : String) :
    List Quiz :=
  s.quizzes.filter (fun q => q.userId = userId)

def DatabaseStorage.createQuiz (s : DatabaseStorage) (rid : String) (now : Nat)
    (quiz : InsertQuiz) : Quiz × DatabaseStorage :=
  let newQuiz : Quiz :=
    { id := rid, userId := quiz.userId, title := quiz.title,
      questions := quiz.questions, materialIds := quiz.materialIds,
      difficulty := quiz.difficulty.getD "medium",
      createdAt := now }
  (newQuiz, { s with quizzes := s.quizzes ++ [newQuiz] })

def DatabaseStorage.deleteQuiz (s : DatabaseStorage) (id : String) :
    Bool × DatabaseStorage :=
  let returned := s.quizzes.filter (fun q => q.id = id)
  (returned.length > 0,
   { s with quizzes := s.quizzes.filter (fun q => q.id ≠ id) })

def DatabaseStorage.getQuizAttempt (s : DatabaseStorage) (id : String) :
    Option QuizAttempt :=
  s.quizAttempts.find? (fun a => a.id = id)

def DatabaseStorage.getQuizAttemptsByUser (s : DatabaseStorage)
    (userId : String) : List QuizAttempt :=
  s.quizAttempts.filter (fun a => a.userId = userId)

def DatabaseStorage.createQuizAttempt (s : DatabaseStorage) (rid : String)
    (now : Nat) (attempt : InsertQuizAttempt) :
    QuizAttempt × DatabaseStorage :=
  let newAttempt : QuizAttempt :=
    { id := rid, userId := attempt.userId, quizId := attempt.quizId,
      answers := attempt.answers, score := attempt.score,
      totalQuestions := attempt.totalQuestions, completedAt := now }
  (newAttempt, { s with quizAttempts := s.quizAttempts ++ [newAttempt] })

/-! ## The `IStorage` interface

The route layer only speaks to `storage` through the `IStorage` methods, so
the handlers below are parameterised by a record of those methods and can be
instantiated with either implementation. -/

structure IStorage (σ : Type) where
  getUser : σ → String → Option User
  getUserByUsername : σ → String → Option User
  getUserByEmail : σ → String → Option User
  createUser : σ → String → Nat → InsertUser → User × σ
  getMaterial : σ → String → Option Material
  getMaterialsByUser : σ → String → List Material
  createMaterial : σ → String → Nat → InsertMaterial → Material × σ
  deleteMaterial : σ → String → Bool × σ
  getConversation : σ → String → Option Conversation
  createConversation : σ → String → Nat → InsertConversation → Conversation × σ
  deleteConversation : σ → String → Bool × σ
  getMessagesByConversation : σ → String → List Message
  createMessage : σ → String → Nat → InsertMessage → Message × σ
  getMindMap : σ → String → Option MindMap
  createMindMap : σ → String → Nat → InsertMindMap → MindMap × σ
  updateMindMap : σ → Nat → String → MindMapUpdates → Option MindMap × σ
  getQuiz : σ → String → Option Quiz
  createQuiz : σ → String → Nat → InsertQuiz → Quiz × σ
  createQuizAttempt : σ → String → Nat → InsertQuizAttempt → QuizAttempt × σ

/-- `MemStorage` as an `IStorage`. -/
def memIStorage : IStorage MemStorage :=
  { getUser := MemStorage.getUser,
    getUserByUsername := MemStorage.getUserByUsername,
    getUserByEmail := MemStorage.getUserByEmail,
    createUser := MemStorage.createUser,
    getMaterial := MemStorage.getMaterial,
    getMaterialsByUser := MemStorage.getMaterialsByUser,
    createMaterial := MemStorage.createMaterial,
    deleteMaterial := MemStorage.deleteMaterial,
    getConversation := MemStorage.getConversation,
    createConversation := MemStorage.createConversation,
    deleteConversation := MemStorage.deleteConversation,
    getMessagesByConversation := MemStorage.getMessagesByConversation,
    createMessage := MemStorage.createMessage,
    getMindMap := MemStorage.getMindMap,
    createMindMap := MemStorage.createMindMap,
    updateMindMap := MemStorage.updateMindMap,
    getQuiz := MemStorage.getQuiz,
    createQuiz := MemStorage.createQuiz,
    createQuizAttempt := MemStorage.createQuizAttempt }

/-- `DatabaseStorage` as an `IStorage`. -/
def dbIStorage : IStorage DatabaseStorage :=
  { getUser := DatabaseStorage.getUser,
    getUserByUsername := DatabaseStorage.getUserByUsername,
    getUserByEmail := DatabaseStorage.getUserByEmail,
    createUser := DatabaseStorage.createUser,
    getMaterial := DatabaseStorage.getMaterial,
    getMaterialsByUser := DatabaseStorage.getMaterialsByUser,
    createMaterial := DatabaseStorage.createMaterial,
    deleteMaterial := DatabaseStorage.deleteMaterial,
    getConversation := DatabaseStorage.getConversation,
    createConversation := DatabaseStorage.createConversation,
    deleteConversation := DatabaseStorage.deleteConversation,
    getMessagesByConversation := DatabaseStorage.getMessagesByConversation,
    createMessage := DatabaseStorage.createMessage,
    getMindMap := DatabaseStorage.getMindMap,
    createMindMap := DatabaseStorage.createMindMap,
    updateMindMap := DatabaseStorage.updateMindMap,
    getQuiz := DatabaseStorage.getQuiz,
    createQuiz := DatabaseStorage.createQuiz,
    createQuizAttempt := DatabaseStorage.createQuizAttempt }

/-! ## Password hashing (server/auth.ts) -/

/-- One byte of a Node `Buffer`. -/
def Byte := Fin 256

instance : DecidableEq Byte := instDecidableEqFin 256

/-- `scryptAsync(password, salt, 64)` modelled as an abstract key-derivation
function from (password, salt) to the 64-byte buffer.  The length is a fact
of the call site, carried as a hypothesis where needed. -/
def ScryptFn := String → String → List Byte

/-- Lower-case hex digit. -/
def hexDigit (n : Nat) : Char :=
  if n < 10 then Char.ofNat (48 + n) else Char.ofNat (87 + n)

/-- Two-character lower-case hex encoding of one byte. -/
def hexByte (b : Byte) : String :=
  String.mk [hexDigit (b.val / 16), hexDigit (b.val % 16)]

/-- `buf.toString("hex")`. -/
def hexEncode (bs : List Byte) : String :=
  String.join (bs.map hexByte)

/-- `hashPassword`: `salt = randomBytes(16).toString("hex")` (the random
bytes are the `saltBytes` argument) and the result is
`scrypt(password, salt).toString("hex") + "." + salt`. -/
def hashPassword (f : ScryptFn) (saltBytes : List Byte) (password : String) :
    String :=
  let salt := hexEncode saltBytes
  hexEncode (f password salt) ++ "." ++ salt

/-- `comparePasswords`: split the stored value on `"."` into hash and salt,
re-derive the key from the supplied password and the stored salt, and compare
the buffers (`timingSafeEqual`; on hashes produced by `hashPassword` the
byte comparison coincides with comparing hex strings). -/
def comparePasswords (f : ScryptFn) (supplied stored : String) : Bool :=
  let parts := splitOnChar '.' stored
  let hashed := parts.headD ""
  let salt := parts.getD 1 ""
  hexEncode (f supplied salt) == hashed

/-! ## AI gateway client (lib/openrouter.ts) -/

/-- Outcome of the underlying `fetch` to the OpenRouter chat-completions
endpoint: a 2xx response carrying `choices[0].message.content`, or a non-2xx
response with its status and body text. -/
inductive GatewayResult where
  | ok (content : Option String) : GatewayResult
  | httpError (status : Nat) (body : String) : GatewayResult
deriving Repr, DecidableEq

/-- `OpenRouterClient.chat`: on a non-2xx response it throws
`Error("OpenRouter API error: <status> - <body>")`, otherwise it returns the
parsed JSON (here: the first completion's content). -/
def chatCall : GatewayResult → Except String (Option String)
  | .ok content => .ok content
  | .httpError status body =>
    .error ("OpenRouter API error: " ++ toString status ++ " - " ++ body)

/-! ## Auth routes (server/auth.ts) -/

/-- `const { password, ...userWithoutPassword } = user`. -/
structure StrippedUser where
  id : String
  username : String
  email : String
  role : String
  plan : String
  language : String
  createdAt : Nat
deriving Repr, DecidableEq

def stripPassword (u : User) : StrippedUser :=
  { id := u.id, username := u.username, email := u.email, role := u.role,
    plan := u.plan, language := u.language, createdAt := u.createdAt }

/-- Response of `POST /api/login`.  In JWT mode the 200 body carries a signed
token; in session mode it does not. -/
inductive LoginRes where
  | invalidCredentials : LoginRes
  | ok (user : StrippedUser) (token : Option String) : LoginRes
deriving Repr, DecidableEq

def LoginRes.status : LoginRes → Nat
  | .invalidCredentials => 401
  | .ok _ _ => 200

/-- The JSON error body sent with the response, when any. -/
def LoginRes.errorBody : LoginRes → Option String
  | .invalidCredentials => some "Invalid credentials"
  | .ok _ _ => none

/-- `POST /api/login`: look the user up by username; answer 401 with the one
generic message if the user is absent or the password comparison fails,
otherwise 200 with the password-stripped user (plus a token in JWT mode).
`sign` abstracts `jwt.sign({ userId }, JWT_SECRET, ...)`. -/
def loginRoute (st : IStorage σ) (s : σ) (f : ScryptFn) (useJwt : Bool)
    (sign : String → String) (username password : String) : LoginRes :=
  match st.getUserByUsername s username with
  | none => .invalidCredentials
  | some user =>
    if comparePasswords f password user.password then
      .ok (stripPassword user) (if useJwt then some (sign user.id) else none)
    else
      .invalidCredentials

/-- Response of `POST /api/register`. -/
inductive RegisterRes where
  | usernameExists : RegisterRes
  | emailExists : RegisterRes
  | created (user : StrippedUser) (token : Option String) : RegisterRes
deriving Repr, DecidableEq

def RegisterRes.status : RegisterRes → Nat
  | .usernameExists => 400
  | .emailExists => 400
  | .created _ _ => 201

/-- `POST /api/register`: reject duplicate username or email with 400,
otherwise create the user with `password: await hashPassword(password)` and
answer 201 with the password-stripped user. -/
def registerRoute (st : IStorage σ) (s : σ) (f : ScryptFn)
    (saltBytes : List Byte) (useJwt : Bool) (sign : String → String)
    (body : InsertUser) (rid : String) (now : Nat) : RegisterRes × σ :=
  match st.getUserByUsername s body.username with
  | some _ => (.usernameExists, s)
  | none =>
    match st.getUserByEmail s body.email with
    | some _ => (.emailExists, s)
    | none =>
      let (user, s') := st.createUser s rid now
        { body with password := hashPassword f saltBytes body.password }
      (.created (stripPassword user) (if useJwt then some (sign user.id) else none),
       s')

/-! ## REST routes (server/routes.ts) -/

/-- Response of `DELETE /api/materials/:id`. -/
inductive DeleteMaterialRes where
  | notFound : DeleteMaterialRes
  | success : DeleteMaterialRes
deriving Repr, DecidableEq

def DeleteMaterialRes.status : DeleteMaterialRes → Nat
  | .notFound => 404
  | .success => 200

/-- `DELETE /api/materials/:id`:
`if (!material || material.userId !== req.userId) return 404`. -/
def deleteMaterialRoute (st : IStorage σ) (s : σ) (userId id : String) :
    DeleteMaterialRes × σ :=
  match st.getMaterial s id with
  | none => (.notFound, s)
  | some material =>
    if material.userId ≠ userId then (.notFound, s)
    else
      let (_, s') := st.deleteMaterial s id
      (.success, s')

/-- Response of `GET /api/conversations/:id/messages`. -/
inductive MessagesRes where
  | notFound : MessagesRes
  | ok (messages : List Message) : MessagesRes
deriving Repr, DecidableEq

def MessagesRes.status : MessagesRes → Nat
  | .notFound => 404
  | .ok _ => 200

/-- `GET /api/conversations/:id/messages`: ownership check on the
conversation, then the sorted message list. -/
def conversationMessagesRoute (st : IStorage σ) (s : σ) (userId id : String) :
    MessagesRes :=
  match st.getConversation s id with
  | none => .notFound
  | some conversation =>
    if conversation.userId ≠ userId then .notFound
    else .ok (st.getMessagesByConversation s id)

/-- Response of `PUT /api/mindmaps/:id`. -/
inductive UpdateMindMapRes where
  | notFound : UpdateMindMapRes
  | ok (mindMap : Option MindMap) : UpdateMindMapRes
deriving Repr, DecidableEq

def UpdateMindMapRes.status : UpdateMindMapRes → Nat
  | .notFound => 404
  | .ok _ => 200

/-- `PUT /api/mindmaps/:id`: parse `{ title?, nodes? }`, ownership check,
then `storage.updateMindMap(id, updates)`. -/
def updateMindMapRoute (st : IStorage σ) (s : σ) (now : Nat)
    (userId id : String) (updates : MindMapUpdates) : UpdateMindMapRes × σ :=
  match st.getMindMap s id with
  | none => (.notFound, s)
  | some mindMap =>
    if mindMap.userId ≠ userId then (.notFound, s)
    else
      let (updatedMindMap, s') := st.updateMindMap s now id updates
      (.ok updatedMindMap, s')

/-- The 200 body of `POST /api/quizzes/:id/attempt`: `{ attempt, results }`. -/
structure AttemptResponse where
  attempt : QuizAttempt
  results : List AttemptResult
deriving Repr, DecidableEq

/-- Response of `POST /api/quizzes/:id/attempt`. -/
inductive QuizAttemptRes where
  | unauthorized : QuizAttemptRes
  | notFound : QuizAttemptRes
  | ok (r : AttemptResponse) : QuizAttemptRes
deriving Repr, DecidableEq

def QuizAttemptRes.status : QuizAttemptRes → Nat
  | .unauthorized => 401
  | .notFound => 404
  | .ok _ => 200

/-- `POST /api/quizzes/:id/attempt`: note that after `storage.getQuiz(id)`
only `if (!quiz)` is checked — there is no `quiz.userId !== req.userId`
ownership test, unlike the sibling handlers.  `answers` is the request's
`questionId -> selectedAnswer` record (absent keys read as `undefined`). -/
def quizAttemptRoute (st : IStorage σ) (s : σ) (userId id : String)
    (answers : String → Option String) (rid : String) (now : Nat) :
    QuizAttemptRes × σ :=
  if userId = "" then (.unauthorized, s)
  else
    match st.getQuiz s id with
    | none => (.notFound, s)
    | some quiz =>
      let results : List AttemptResult := quiz.questions.map (fun q =>
        let userAnswer := answers q.id
        { questionId := q.id, userAnswer := userAnswer,
          correctAnswer := q.correctAnswer,
          isCorrect := userAnswer == some q.correctAnswer,
          explanation := q.explanation })
      let correct := (results.filter (fun r => r.isCorrect)).length
      let (attempt, s') := st.createQuizAttempt s rid now
        { quizId := id, answers := results, score := correct,
          totalQuestions := quiz.questions.length, userId := userId }
      (.ok { attempt := attempt, results := results }, s')

/-- The uploaded file as multer hands it to the route: original name, MIME
type, size, and (for the text branch) the file text read from disk. -/
structure UploadedFile where
  originalname : String
  mimetype : String
  size : Nat
  text : String
deriving Repr, DecidableEq

/-- Response of `POST /api/materials/upload`. -/
inductive UploadRes where
  | unauthorized : UploadRes
  | noFile : UploadRes
  | serverError (error : String) : UploadRes
  | ok (material : Material) : UploadRes
deriving Repr, DecidableEq

def UploadRes.status : UploadRes → Nat
  | .unauthorized => 401
  | .noFile => 400
  | .serverError _ => 500
  | .ok _ => 200

/-- `POST /api/materials/upload`: content/type dispatch on the MIME type.
`content` starts as `""` and `type` as `"file"`; `text/*` reads the file,
`application/pdf` leaves the placeholder (extraction is a TODO), `image/*`
asks the vision model (`gw`), and any other MIME type falls through with
`type` still `"file"`.  A thrown gateway error is caught and mapped to 500. -/
def uploadMaterialRoute (st : IStorage σ) (s : σ) (gw : GatewayResult)
    (userId : String) (file : Option UploadedFile) (rid : String) (now : Nat) :
    UploadRes × σ :=
  if userId = "" then (.unauthorized, s)
  else
    match file with
    | none => (.noFile, s)
    | some f =>
      let dispatched : Except String (String × String) :=
        if strStartsWith f.mimetype "text/" then .ok (f.text, "text")
        else if f.mimetype = "application/pdf" then .ok ("", "pdf")
        else if strStartsWith f.mimetype "image/" then
          match chatCall gw with
          | .error e => .error e
          | .ok visionContent => .ok (visionContent.getD "", "image")
        else .ok ("", "file")
      match dispatched with
      | .error e => (.serverError e, s)
      | .ok (content, type) =>
        let materialData : InsertMaterial :=
          { filename := f.originalname, type := type, content := some content,
            metadata := some (Json.obj
              [("size", Json.num f.size), ("mimetype", Json.str f.mimetype)]),
            userId := userId }
        let (material, s') := st.createMaterial s rid now materialData
        (.ok material, s')

/-- `url.match(/(?:youtube\.com\/watch\?v=|youtu\.be\/)([^&\n?#]+)/)?.[1]`:
the id is the non-empty run after either marker, stopped at `&`, newline,
`?` or `#`. -/
def matchVideoId (url : String) : Option String :=
  let grab := fun (pat : String) =>
    match url.splitOn pat with
    | _ :: rest :: more =>
      let tailStr := String.intercalate pat (rest :: more)
      let idChars := tailStr.toList.takeWhile
        (fun c => c != '&' && c != '\n' && c != '?' && c != '#')
      if idChars.isEmpty then none else some (String.mk idChars)
    | _ => none
  (grab "youtube.com/watch?v=").orElse (fun _ => grab "youtu.be/")

/-- Response of `POST /api/materials/youtube`. -/
inductive YoutubeRes where
  | unauthorized : YoutubeRes
  | badRequest (error : String) : YoutubeRes
  | ok (material : Material) : YoutubeRes
deriving Repr, DecidableEq

def YoutubeRes.status : YoutubeRes → Nat
  | .unauthorized => 401
  | .badRequest _ => 400
  | .ok _ => 200

/-- `POST /api/materials/youtube` (the `url` argument is assumed to have
passed `z.string().url()`): extract the video id or 400, then store a
`type: "youtube"` material with the placeholder transcript content. -/
def youtubeMaterialRoute (st : IStorage σ) (s : σ) (userId url rid : String)
    (now : Nat) : YoutubeRes × σ :=
  if userId = "" then (.unauthorized, s)
  else
    match matchVideoId url with
    | none => (.badRequest "Invalid YouTube URL", s)
    | some videoId =>
      let content := "YouTube video: " ++ url ++ "\nVideo ID: " ++ videoId ++
        "\nTranscript extraction would be implemented here."
      let materialData : InsertMaterial :=
        { filename := "YouTube Video - " ++ videoId, type := "youtube",
          content := some content,
          metadata := some (Json.obj
            [("url", Json.str url), ("videoId", Json.str videoId)]),
          userId := userId }
      let (material, s') := st.createMaterial s rid now materialData
      (.ok material, s')

/-- Response of the Express `POST /api/quizzes/generate`.  The handler's
`catch` clause maps every thrown error to `res.status(400)`; the route has
no 500 path at all. -/
inductive GenerateQuizRes where
  | unauthorized : GenerateQuizRes
  | badRequest (error : String) : GenerateQuizRes
  | ok (quiz : Quiz) : GenerateQuizRes
deriving Repr, DecidableEq

def GenerateQuizRes.status : GenerateQuizRes → Nat
  | .unauthorized => 401
  | .badRequest _ => 400
  | .ok _ => 200

/-- Express `POST /api/quizzes/generate`: gather material content (control
flow does not depend on it), call the gateway, parse the completion
(`parseQuiz` abstracts `JSON.parse(...).questions || []`), store the quiz.
A thrown gateway error lands in the catch clause as a 400. -/
def quizzesGenerateRoute (st : IStorage σ) (s : σ) (gw : GatewayResult)
    (userId topic difficulty : String) (materialIds : List String)
    (parseQuiz : String → List Question) (rid : String) (now : Nat) :
    GenerateQuizRes × σ :=
  if userId = "" then (.unauthorized, s)
  else
    match chatCall gw with
    | .error msg => (.badRequest msg, s)
    | .ok content =>
      let questions := parseQuiz (content.getD "{}")
      let (quiz, s') := st.createQuiz s rid now
        { title := topic ++ " - Quiz", questions := questions,
          materialIds := some (Json.arr (materialIds.map Json.str)),
          difficulty := some difficulty, userId := userId }
      (.ok quiz, s')

/-- Response of the Express `POST /api/mindmaps/generate` (same catch-all
400 shape as the quiz generator). -/
inductive GenerateMindMapRes where
  | unauthorized : GenerateMindMapRes
  | badRequest (error : String) : GenerateMindMapRes
  | ok (mindMap : MindMap) : GenerateMindMapRes
deriving Repr, DecidableEq

def GenerateMindMapRes.status : GenerateMindMapRes → Nat
  | .unauthorized => 401
  | .badRequest _ => 400
  | .ok _ => 200

/-- Express `POST /api/mindmaps/generate`: call the gateway, parse the
completion into the node/connection structure (`parseMindMap` abstracts
`JSON.parse(... || "{}")`), store the mind map.  A thrown gateway error
lands in the catch clause as a 400. -/
def mindmapsGenerateRoute (st : IStorage σ) (s : σ) (gw : GatewayResult)
    (userId topic : String) (materialIds : List String)
    (parseMindMap : String → Json) (rid : String) (now : Nat) :
    GenerateMindMapRes × σ :=
  if userId = "" then (.unauthorized, s)
  else
    match chatCall gw with
    | .error msg => (.badRequest msg, s)
    | .ok content =>
      let mindMapStructure := parseMindMap (content.getD "{}")
      let (mindMap, s') := st.createMindMap s rid now
        { title := topic ++ " - Mind Map", nodes := mindMapStructure,
          materialIds := some (Json.arr (materialIds.map Json.str)),
          userId := userId }
      (.ok mindMap, s')

/-! ## Standalone serverless quiz generator (api/quizzes/generate.ts) -/

/-- Response of the serverless handler: unlike the Express route, its catch
clause answers `res.status(500)`. -/
inductive ServerlessQuizRes where
  | methodNotAllowed : ServerlessQuizRes
  | badRequest (error : String) : ServerlessQuizRes
  | serverError (error : String) : ServerlessQuizRes
  | ok (title : String) (questions : List Question) (difficulty : String)
      (materialIds : List String) : ServerlessQuizRes
deriving Repr, DecidableEq

def ServerlessQuizRes.status : ServerlessQuizRes → Nat
  | .methodNotAllowed => 405
  | .badRequest _ => 400
  | .serverError _ => 500
  | .ok _ _ _ _ => 200

/-- `api/quizzes/generate.ts`: 405 on non-POST, 400 when `topic` is falsy,
500 (with the error message) when the gateway call throws, 200 otherwise. -/
def apiQuizzesGenerate (gw : GatewayResult) (method : String)
    (topic : Option String) (difficulty : String)
    (materialIds : List String) (parseQuiz : String → List Question) :
    ServerlessQuizRes :=
  if method ≠ "POST" then .methodNotAllowed
  else if (jsOrNoneStr topic).isNone then .badRequest "Topic is required"
  else
    match chatCall gw with
    | .error msg => .serverError msg
    | .ok content =>
      .ok ((topic.getD "") ++ " - Quiz") (parseQuiz (content.getD "{}"))
        difficulty materialIds

/-- The material type tags the schema comment, the spec and the client
`Material` interface enumerate: `pdf, image, video, youtube, text`. -/
def specMaterialTypes : List String := ["pdf", "image", "video", "youtube", "text"]

/-! ## Observational comparison of the two implementations (material ops)

One operation type for the material sub-interface of `IStorage`, run against
both implementations with the same generated ids and timestamps, so results
can be compared "up to generated ids and timestamps" by passing equal ones. -/

inductive MaterialOp where
  | create (rid : String) (now : Nat) (m : InsertMaterial) : MaterialOp
  | get (id : String) : MaterialOp
  | listByUser (userId : String) : MaterialOp
  | delete (id : String) : MaterialOp
deriving Repr, DecidableEq

/-- The externally observable result of one material operation. -/
inductive MaterialOut where
  | created (m : Material) : MaterialOut
  | found (m : Option Material) : MaterialOut
  | listed (ms : List Material) : MaterialOut
  | deleted (b : Bool) : MaterialOut
deriving Repr, DecidableEq

def memMaterialOp (s : MemStorage) : MaterialOp → MaterialOut × MemStorage
  | .create rid now m =>
    let (r, s') := s.createMaterial rid now m
    (.created r, s')
  | .get id => (.found (s.getMaterial id), s)
  | .listByUser userId => (.listed (s.getMaterialsByUser userId), s)
  | .delete id =>
    let (b, s') := s.deleteMaterial id
    (.deleted b, s')

def dbMaterialOp (s : DatabaseStorage) : MaterialOp → MaterialOut × DatabaseStorage
  | .create rid now m =>
    let (r, s') := s.createMaterial rid now m
    (.created r, s')
  | .get id => (.found (s.getMaterial id), s)
  | .listByUser userId => (.listed (s.getMaterialsByUser userId), s)
  | .delete id =>
    let (b, s') := s.deleteMaterial id
    (.deleted b, s')

def memMaterialRun (s : MemStorage) : List MaterialOp → List MaterialOut × MemStorage
  | [] => ([], s)
  | op :: ops =>
    ((memMaterialOp s op).1 :: (memMaterialRun (memMaterialOp s op).2 ops).1,
     (memMaterialRun (memMaterialOp s op).2 ops).2)

def dbMaterialRun (s : DatabaseStorage) : List MaterialOp → List MaterialOut × DatabaseStorage
  | [] => ([], s)
  | op :: ops =>
    ((dbMaterialOp s op).1 :: (dbMaterialRun (dbMaterialOp s op).2 ops).1,
     (dbMaterialRun (dbMaterialOp s op).2 ops).2)

/-- Inputs on which the two implementations cannot be told apart: the
generated id is fresh (`randomUUID` in practice; a real database would
reject a duplicate primary key where the map silently replaces), and no
optional field is supplied as a present-but-falsy value (`MemStorage`
normalises those with `|| null` while the database stores them verbatim). -/
def goodMaterialOp (s : MemStorage) : MaterialOp → Bool
  | .create rid _ m =>
    (mapGet s.materials rid).isNone && m.content != some "" &&
      jsOrNoneJson m.metadata == m.metadata
  | _ => true

def goodMaterialOps (s : MemStorage) : List MaterialOp → Bool
  | [] => true
  | op :: ops => goodMaterialOp s op && goodMaterialOps (memMaterialOp s op).2 ops

/-- The coupling between a `MemStorage` material map and a `DatabaseStorage`
material table: same records in the same order, each map entry keyed by its
record's id. -/
def materialsRel (mem : List (String × Material)) (db : List Material) : Prop :=
  mem.map Prod.snd = db ∧ ∀ p ∈ mem, p.1 = p.2.id

/-! ## Concrete fixtures for the closed statements -/

/-- The zero byte. -/
def byte0 : Byte := ⟨0, by decide⟩

/-- A concrete stand-in for the scrypt key derivation (64-byte output, as
requested at the call site; depends on the password so that wrong passwords
produce different digests). -/
def scrypt0 : ScryptFn := fun pw _ =>
  List.replicate 64 (Fin.ofNat pw.length)

/-- Concrete 16 random bytes for `randomBytes(16)`. -/
def salt0 : List Byte := List.replicate 16 byte0

/-- A storage state whose only user "alice" was stored by the register
handler (password hashed with `scrypt0`/`salt0`). -/
def c3State : MemStorage :=
  { memEmpty with
    users := [("u1",
      { id := "u1", username := "alice",
        password := hashPassword scrypt0 salt0 "correct horse",
        email := "alice@example.com", role := "student", plan := "free",
        language := "en", createdAt := 0 })] }

/-- A storage state with a user "u" owning one material, one conversation
(with a message), one mind map and one quiz, and a second user "v" owning
nothing. -/
def c1State : MemStorage :=
  { users :=
      [("u", { id := "u", username := "ursula", password := "x.y",
               email := "u@example.com", role := "student", plan := "free",
               language := "en", createdAt := 0 }),
       ("v", { id := "v", username := "victor", password := "x.y",
               email := "v@example.com", role := "student", plan := "free",
               language := "en", createdAt := 0 })],
    materials :=
      [("m1", { id := "m1", userId := "u", filename := "notes.txt",
                type := "text", content := some "secret notes",
                metadata := none, uploadedAt := 1 })],
    conversations :=
      [("c1", { id := "c1", userId := "u", title := some "Chat",
                createdAt := 1 })],
    messages :=
      [("msg1", { id := "msg1", conversationId := "c1", role := "user",
                  content := "hello", audioUrl := none, materialIds := none,
                  timestamp := 2 })],
    mindMaps :=
      [("mm1", { id := "mm1", userId := "u", title := "Map",
                 nodes := Json.obj [], materialIds := none,
                 createdAt := 1, updatedAt := 1 })],
    quizzes :=
      [("q1", { id := "q1", userId := "u", title := "Bio - Quiz",
                questions := [{ id := "qq1", type := "multiple_choice",
                                question := "2+2?",
                                options := ["A) 4", "B) 5"],
                                correctAnswer := "A", explanation := "basic" }],
                materialIds := none, difficulty := "medium", createdAt := 1 })],
    quizAttempts := [] }

/-- A two-question quiz owned by "u". -/
def c2Quiz : Quiz :=
  { id := "qz", userId := "u", title := "Bio - Quiz",
    questions :=
      [{ id := "a", type := "multiple_choice", question := "Q1",
         options := ["A) x", "B) y"], correctAnswer := "A",
         explanation := "ea" },
       { id := "b", type := "multiple_choice", question := "Q2",
         options := ["A) x", "B) y"], correctAnswer := "B",
         explanation := "eb" }],
    materialIds := none, difficulty := "medium", createdAt := 0 }

/-- `c2Quiz` stored in the in-memory implementation. -/
def c2MemState : MemStorage := { memEmpty with quizzes := [("qz", c2Quiz)] }

/-- `c2Quiz` stored in the database-backed implementation. -/
def c2DbState : DatabaseStorage := { dbEmpty with quizzes := [c2Quiz] }

/-- A stored mind map for the update-frame witness. -/
def c7Map : MindMap :=
  { id := "mm1", userId := "u", title := "Old",
    nodes := Json.obj [("n", Json.num 1)],
    materialIds := some (Json.arr [Json.str "m1"]),
    createdAt := 1, updatedAt := 1 }

/-- `c7Map` stored in the in-memory implementation. -/
def c7MemState : MemStorage := { memEmpty with mindMaps := [("mm1", c7Map)] }

/-- `c7Map` stored in the database-backed implementation. -/
def c7DbState : DatabaseStorage := { dbEmpty with mindMaps := [c7Map] }

/-- A partial update supplying only `title`. -/
def c7Upd : MindMapUpdates := { title := some "New", nodes := none }

/-- The attempt record the attempt handler persists for user "v" against
quiz "q1" of `c1State` when the submitted answer is wrong. -/
def c1Attempt : QuizAttempt :=
  { id := "a1", userId := "v", quizId := "q1",
    answers := [{ questionId := "qq1", userAnswer := some "B",
                  correctAnswer := "A", isCorrect := false,
                  explanation := "basic" }],
    score := 0, totalQuestions := 1, completedAt := 9 }

/-! ## Helper lemmas -/

theorem find_cons_true {α : Type} {p : α → Bool} {a : α} (l : List α)
    (h : p a = true) : (a :: l).find? p = some a := by
  simp [List.find?, h]

theorem find_cons_false {α : Type} {p : α → Bool} {a : α} (l : List α)
    (h : p a = false) : (a :: l).find? p = l.find? p := by
  simp [List.find?, h]

theorem findReplace {α : Type} (m : List (String × α)) (k : String) (v : α) :
    (m.map (fun p => if p.1 = k then (k, v) else p)).find? (fun p => p.1 = k)
      = if (m.find? (fun p => p.1 = k)).isSome then some (k, v) else none := by
  induction m with
  | nil => simp
  | cons q m' ih =>
    by_cases hq : q.1 = k
    · simp only [List.map_cons, if_pos hq]
      rw [find_cons_true _ (by simp), find_cons_true _ (by simp [hq])]
      simp
    · simp only [List.map_cons, if_neg hq]
      rw [find_cons_false _ (by simp [hq]), find_cons_false _ (by simp [hq]), ih]

theorem findAppendSingle {α : Type} (m : List (String × α)) (k : String) (v : α) :
    ((m ++ [(k, v)]).find? (fun p => p.1 = k))
      = ((m.find? (fun p => p.1 = k)).getD (k, v)) := by
  induction m with
  | nil => simp [List.find?]
  | cons q m' ih =>
    by_cases hq : q.1 = k
    · rw [List.cons_append, find_cons_true _ (by simp [hq]),
        find_cons_true _ (by simp [hq])]
      rfl
    · rw [List.cons_append, find_cons_false _ (by simp [hq]),
        find_cons_false _ (by simp [hq]), ih]

theorem mapSet_found {α : Type} {m : List (String × α)} {k : String} (v : α)
    (h : (m.find? (fun p => p.1 = k)).isSome) :
    mapSet m k v = m.map (fun p => if p.1 = k then (k, v) else p) := by
  unfold mapSet
  rw [if_pos h]

theorem mapSet_fresh {α : Type} {m : List (String × α)} {k : String} (v : α)
    (h : m.find? (fun p => p.1 = k) = none) :
    mapSet m k v = m ++ [(k, v)] := by
  unfold mapSet
  rw [h]
  rfl

theorem mapGet_mapSet_self {α : Type} (m : List (String × α)) (k : String)
    (v : α) : mapGet (mapSet m k v) k = some v := by
  by_cases h : (m.find? (fun p => p.1 = k)).isSome
  · rw [mapSet_found v h]
    unfold mapGet
    rw [findReplace, if_pos h]
    rfl
  · have hf : m.find? (fun p => p.1 = k) = none := by
      cases hx : m.find? (fun p => p.1 = k) with
      | none => rfl
      | some q => rw [hx] at h; simp at h
    rw [mapSet_fresh v hf]
    unfold mapGet
    rw [findAppendSingle, hf]
    rfl

theorem find_append_of_none {α : Type} {p : α → Bool} {l : List α}
    (r : List α) (h : l.find? p = none) : (l ++ r).find? p = r.find? p := by
  induction l with
  | nil => rfl
  | cons a l' ih =>
    by_cases ha : p a
    · rw [find_cons_true _ (by simpa using ha)] at h
      simp at h
    · rw [find_cons_false _ (by simpa using ha)] at h
      rw [List.cons_append, find_cons_false _ (by simpa using ha), ih h]

theorem filterConvEmptyMem (l : List (String × Message)) (id : String) :
    ((l.filter (fun p => p.2.conversationId ≠ id)).map (fun p => p.2)).filter
      (fun m => m.conversationId = id) = [] := by
  induction l with
  | nil => rfl
  | cons q l' ih =>
    by_cases hq : q.2.conversationId = id
    · simp [List.filter_cons, hq, ih]
    · simp [List.filter_cons, hq, ih]

theorem filterConvEmptyDb (l : List Message) (id : String) :
    (l.filter (fun m => m.conversationId ≠ id)).filter
      (fun m => m.conversationId = id) = [] := by
  induction l with
  | nil => rfl
  | cons q l' ih =>
    by_cases hq : q.conversationId = id
    · simp [List.filter_cons, hq, ih]
    · simp [List.filter_cons, hq, ih]

theorem length_filter_map {α β : Type} (f : α → β) (p : β → Bool)
    (l : List α) :
    ((l.map f).filter p).length = l.countP (fun a => p (f a)) := by
  induction l with
  | nil => rfl
  | cons a l' ih =>
    by_cases h : p (f a) <;>
      simp [List.filter_cons, List.countP_cons, h, ih]

theorem find_map_update {α : Type} (rows : List α) (idOf : α → String)
    (id : String) (upd : α → α) (h : ∀ m, idOf (upd m) = idOf m) :
    (rows.map (fun m => if idOf m = id then upd m else m)).find?
        (fun m => idOf m = id)
      = (rows.find? (fun m => idOf m = id)).map upd := by
  induction rows with
  | nil => rfl
  | cons r rows' ih =>
    by_cases hr : idOf r = id
    · simp only [List.map_cons, if_pos hr]
      rw [find_cons_true _ (by simp [h, hr]), find_cons_true _ (by simp [hr])]
      rfl
    · simp only [List.map_cons, if_neg hr]
      rw [find_cons_false _ (by simp [hr]), find_cons_false _ (by simp [hr]), ih]

theorem mapGet_eq_find_id (mem : List (String × Material))
    (hwf : ∀ p ∈ mem, p.1 = p.2.id) (k : String) :
    mapGet mem k = (mem.map Prod.snd).find? (fun m => m.id = k) := by
  induction mem with
  | nil => rfl
  | cons q l ih =>
    have hq : q.1 = q.2.id := hwf q (List.mem_cons_self q l)
    have hl : ∀ p ∈ l, p.1 = p.2.id := fun p hp =>
      hwf p (List.mem_cons_of_mem q hp)
    by_cases hk : q.1 = k
    · unfold mapGet
      rw [find_cons_true _ (by simp [hk]), List.map_cons,
        find_cons_true _ (by simp [← hq, hk])]
      rfl
    · unfold mapGet
      rw [find_cons_false _ (by simp [hk]), List.map_cons,
        find_cons_false _ (by simp [← hq, hk])]
      exact ih hl

theorem filter_keys_snd (mem : List (String × Material))
    (hwf : ∀ p ∈ mem, p.1 = p.2.id) (k : String) :
    (mem.filter (fun p => p.1 ≠ k)).map Prod.snd
      = (mem.map Prod.snd).filter (fun m => m.id ≠ k) := by
  induction mem with
  | nil => rfl
  | cons q l ih =>
    have hq : q.1 = q.2.id := hwf q (List.mem_cons_self q l)
    have hl : ∀ p ∈ l, p.1 = p.2.id := fun p hp =>
      hwf p (List.mem_cons_of_mem q hp)
    by_cases hk : q.1 = k
    · have h1 : (decide (q.1 ≠ k)) = false := by simp [hk]
      have h2 : (decide (q.2.id ≠ k)) = false := by simp [← hq, hk]
      rw [List.filter_cons, List.map_cons, List.filter_cons, h1, h2]
      simp only [Bool.false_eq_true, if_false]
      exact ih hl
    · have h1 : (decide (q.1 ≠ k)) = true := by simp [hk]
      have h2 : (decide (q.2.id ≠ k)) = true := by simp [← hq, hk]
      rw [List.filter_cons, List.map_cons, List.filter_cons, h1, h2]
      simp only [if_true]
      rw [List.map_cons, ih hl]

theorem find_isSome_eq_filter (mem : List (String × Material))
    (hwf : ∀ p ∈ mem, p.1 = p.2.id) (k : String) :
    (mem.find? (fun p => p.1 = k)).isSome
      = decide (((mem.map Prod.snd).filter (fun m => m.id = k)).length > 0) := by
  induction mem with
  | nil => rfl
  | cons q l ih =>
    have hq : q.1 = q.2.id := hwf q (List.mem_cons_self q l)
    have hl : ∀ p ∈ l, p.1 = p.2.id := fun p hp =>
      hwf p (List.mem_cons_of_mem q hp)
    by_cases hk : q.1 = k
    · rw [find_cons_true _ (by simp [hk])]
      simp [List.filter_cons, ← hq, hk]
    · rw [find_cons_false _ (by simp [hk])]
      simp only [List.map_cons, List.filter_cons]
      have : ¬ (q.2.id = k) := by rw [← hq]; exact hk
      simp only [this, decide_False, ite_false, cond_false]
      exact ih hl

theorem wf_filter_keys (mem : List (String × Material))
    (hwf : ∀ p ∈ mem, p.1 = p.2.id) (k : String) :
    ∀ p ∈ mem.filter (fun p => p.1 ≠ k), p.1 = p.2.id :=
  fun p hp => hwf p (List.mem_of_mem_filter hp)

theorem mapGet_none_find_none (mem : List (String × Material)) (k : String)
    (h : mapGet mem k = none) : mem.find? (fun p => p.1 = k) = none := by
  unfold mapGet at h
  cases hx : mem.find? (fun p => p.1 = k) with
  | none => rfl
  | some q => rw [hx] at h; simp at h

/-- One-step simulation: on a good input, the two implementations produce the
same observable output and stay coupled. -/
theorem material_op_sim (s : MemStorage) (d : DatabaseStorage)
    (op : MaterialOp) (hrel : materialsRel s.materials d.materials)
    (hgood : goodMaterialOp s op = true) :
    (memMaterialOp s op).1 = (dbMaterialOp d op).1 ∧
      materialsRel (memMaterialOp s op).2.materials
        (dbMaterialOp d op).2.materials := by
  obtain ⟨hsnd, hwf⟩ := hrel
  cases op with
  | create rid now m =>
    simp only [goodMaterialOp, Bool.and_eq_true, beq_iff_eq, bne_iff_ne,
      Option.isNone_iff_eq_none] at hgood
    obtain ⟨⟨hfresh, hcontent⟩, hmeta⟩ := hgood
    have hcontent' : jsOrNoneStr m.content = m.content := by
      cases hc : m.content with
      | none => rfl
      | some str =>
        have : str ≠ "" := by
          intro he
          rw [hc, he] at hcontent
          exact hcontent rfl
        simp [jsOrNoneStr, this]
    have hfind : s.materials.find? (fun p => p.1 = rid) = none :=
      mapGet_none_find_none s.materials rid hfresh
    simp only [memMaterialOp, dbMaterialOp, MemStorage.createMaterial,
      DatabaseStorage.createMaterial, mapSet_fresh _ hfind, hcontent', hmeta]
    refine ⟨trivial, ?_, ?_⟩
    · simp [hsnd]
    · intro p hp
      rcases List.mem_append.mp hp with hin | hin
      · exact hwf p hin
      · simp only [List.mem_singleton] at hin
        subst hin
        rfl
  | get id =>
    refine ⟨?_, ⟨hsnd, hwf⟩⟩
    simp only [memMaterialOp, dbMaterialOp, MemStorage.getMaterial,
      DatabaseStorage.getMaterial]
    rw [mapGet_eq_find_id s.materials hwf id, hsnd]
  | listByUser userId =>
    refine ⟨?_, ⟨hsnd, hwf⟩⟩
    simp only [memMaterialOp, dbMaterialOp, MemStorage.getMaterialsByUser,
      DatabaseStorage.getMaterialsByUser, mapValues]
    rw [hsnd]
  | delete id =>
    constructor
    · simp only [memMaterialOp, dbMaterialOp, MemStorage.deleteMaterial,
        DatabaseStorage.deleteMaterial, mapDelete]
      rw [find_isSome_eq_filter s.materials hwf id, hsnd]
    · simp only [memMaterialOp, dbMaterialOp, MemStorage.deleteMaterial,
        DatabaseStorage.deleteMaterial, mapDelete]
      refine ⟨?_, wf_filter_keys s.materials hwf id⟩
      rw [filter_keys_snd s.materials hwf id, hsnd]

/-- Multi-step simulation: a whole sequence of good material operations is
observationally identical on the two implementations. -/
theorem material_run_sim (ops : List MaterialOp) :
    ∀ (s : MemStorage) (d : DatabaseStorage),
      materialsRel s.materials d.materials →
      goodMaterialOps s ops = true →
      (memMaterialRun s ops).1 = (dbMaterialRun d ops).1 ∧
        materialsRel (memMaterialRun s ops).2.materials
          (dbMaterialRun d ops).2.materials := by
  induction ops with
  | nil =>
    intro s d hrel _
    exact ⟨rfl, hrel⟩
  | cons op ops ih =>
    intro s d hrel hgood
    simp only [goodMaterialOps, Bool.and_eq_true] at hgood
    obtain ⟨hg1, hg2⟩ := hgood
    obtain ⟨ho, hrel'⟩ := material_op_sim s d op hrel hg1
    obtain ⟨hos, hrel''⟩ := ih _ _ hrel' hg2
    refine ⟨?_, ?_⟩
    · simp only [memMaterialRun, dbMaterialRun]
      rw [ho, hos]
    · simp only [memMaterialRun, dbMaterialRun]
      exact hrel''

/-! ## Claim theorems -/

/-- C10: deleting a conversation also deletes every message whose
`conversationId` references it, in both storage implementations: after
`deleteConversation(id)`, `getMessagesByConversation(id)` returns the empty
list, so no message is orphaned by a conversation delete. -/
theorem c10_delete_conversation_cascades (s : MemStorage) (d : DatabaseStorage)
    (id : String) :
    MemStorage.getMessagesByConversation
        (MemStorage.deleteConversation s id).2 id = [] ∧
    DatabaseStorage.getMessagesByConversation
        (DatabaseStorage.deleteConversation d id).2 id = [] := by
  constructor
  · simp only [MemStorage.getMessagesByConversation,
      MemStorage.deleteConversation, mapDelete, mapValues]
    rw [filterConvEmptyMem]
    rfl
  · simp only [DatabaseStorage.getMessagesByConversation,
      DatabaseStorage.deleteConversation]
    rw [filterConvEmptyDb]
    rfl

/-- C5 counterexample: create a material through `createMaterial` with the
submitted content being the empty string (exactly what the upload route
submits for a PDF or unrecognised file) and fetch it back by the returned
id: the stored `content` is `null`, not the submitted empty string, because
`MemStorage.createMaterial` normalises with `material.content || null`.  So
the round-trip does not return the submitted `content` for every material. -/
theorem c5_roundtrip_counterexample :
    ((MemStorage.getMaterial
        (MemStorage.createMaterial memEmpty "m1" 0
          { filename := "doc.pdf", type := "pdf", content := some "",
            metadata := none, userId := "u" }).2 "m1").map Material.content)
      = some none ∧
    ((MemStorage.getMaterial
        (MemStorage.createMaterial memEmpty "m1" 0
          { filename := "doc.pdf", type := "pdf", content := some "",
            metadata := none, userId := "u" }).2 "m1").map Material.content)
      ≠ some (some "") := by
  decide

/-- C5 (amended): creating a material and immediately fetching it by the
returned id yields the created record, whose `filename` and `type` always
equal the submitted ones and whose `content` equals the submitted content
whenever that content is not a present-but-empty string (the vision-extracted
description playing the role of the submitted content for images). -/
theorem c5_roundtrip_amended (s : MemStorage) (rid : String) (now : Nat)
    (ins : InsertMaterial) (h : ins.content ≠ some "") :
    MemStorage.getMaterial (MemStorage.createMaterial s rid now ins).2
        ((MemStorage.createMaterial s rid now ins).1.id)
      = some (MemStorage.createMaterial s rid now ins).1 ∧
    (MemStorage.createMaterial s rid now ins).1.filename = ins.filename ∧
    (MemStorage.createMaterial s rid now ins).1.type = ins.type ∧
    (MemStorage.createMaterial s rid now ins).1.content = ins.content := by
  have hc : jsOrNoneStr ins.content = ins.content := by
    cases hx : ins.content with
    | none => rfl
    | some str =>
      have hne : str ≠ "" := by
        intro he
        rw [hx, he] at h
        exact h rfl
      simp [jsOrNoneStr, hne]
  refine ⟨?_, rfl, rfl, ?_⟩
  · simp only [MemStorage.createMaterial, MemStorage.getMaterial]
    exact mapGet_mapSet_self _ _ _
  · simp only [MemStorage.createMaterial]
    exact hc

/-- C5 witness: the spec's concrete scenario.  Uploading the plaintext file
"notes.txt" containing "photosynthesis converts light to energy" stores a
`type = "text"` material with that exact content, and the amended round-trip
theorem applies to the same insert payload. -/
theorem c5_roundtrip_amended_witness :
    ((uploadMaterialRoute memIStorage memEmpty (GatewayResult.ok none) "u"
        (some { originalname := "notes.txt", mimetype := "text/plain",
                size := 41,
                text := "photosynthesis converts light to energy" }) "m2" 3).1
      = UploadRes.ok
          { id := "m2", userId := "u", filename := "notes.txt",
            type := "text",
            content := some "photosynthesis converts light to energy",
            metadata := some (Json.obj
              [("size", Json.num 41), ("mimetype", Json.str "text/plain")]),
            uploadedAt := 3 }) ∧
    (MemStorage.getMaterial
        (MemStorage.createMaterial memEmpty "m2" 3
          { filename := "notes.txt", type := "text",
            content := some "photosynthesis converts light to energy",
            metadata := some (Json.obj
              [("size", Json.num 41), ("mimetype", Json.str "text/plain")]),
            userId := "u" }).2
        ((MemStorage.createMaterial memEmpty "m2" 3
          { filename := "notes.txt", type := "text",
            content := some "photosynthesis converts light to energy",
            metadata := some (Json.obj
              [("size", Json.num 41), ("mimetype", Json.str "text/plain")]),
            userId := "u" }).1.id)
      = some (MemStorage.createMaterial memEmpty "m2" 3
          { filename := "notes.txt", type := "text",
            content := some "photosynthesis converts light to energy",
            metadata := some (Json.obj
              [("size", Json.num 41), ("mimetype", Json.str "text/plain")]),
            userId := "u" }).1 ∧
      (MemStorage.createMaterial memEmpty "m2" 3
          { filename := "notes.txt", type := "text",
            content := some "photosynthesis converts light to energy",
            metadata := some (Json.obj
              [("size", Json.num 41), ("mimetype", Json.str "text/plain")]),
            userId := "u" }).1.filename = "notes.txt" ∧
      (MemStorage.createMaterial memEmpty "m2" 3
          { filename := "notes.txt", type := "text",
            content := some "photosynthesis converts light to energy",
            metadata := some (Json.obj
              [("size", Json.num 41), ("mimetype", Json.str "text/plain")]),
            userId := "u" }).1.type = "text" ∧
      (MemStorage.createMaterial memEmpty "m2" 3
          { filename := "notes.txt", type := "text",
            content := some "photosynthesis converts light to energy",
            metadata := some (Json.obj
              [("size", Json.num 41), ("mimetype", Json.str "text/plain")]),
            userId := "u" }).1.content
        = some "photosynthesis converts light to energy") :=
  ⟨by decide,
   c5_roundtrip_amended memEmpty "m2" 3
     { filename := "notes.txt", type := "text",
       content := some "photosynthesis converts light to energy",
       metadata := some (Json.obj
         [("size", Json.num 41), ("mimetype", Json.str "text/plain")]),
       userId := "u" } (by decide)⟩

/-- C6 (code bug): uploading a file whose MIME type matches none of the
dispatch branches — here a video, `video/mp4` — stores a material whose
`type` is `"file"`, which is outside the set {pdf, image, video, youtube,
text} that the schema comment, the client `Material` interface and the spec
document.  (No branch ever produces `"video"`.) -/
theorem c6_material_type_file_bug :
    (uploadMaterialRoute memIStorage memEmpty (GatewayResult.ok none) "u"
        (some { originalname := "lecture.mp4", mimetype := "video/mp4",
                size := 10, text := "" }) "m1" 0).1
      = UploadRes.ok
          { id := "m1", userId := "u", filename := "lecture.mp4",
            type := "file", content := none,
            metadata := some (Json.obj
              [("size", Json.num 10), ("mimetype", Json.str "video/mp4")]),
            uploadedAt := 0 } ∧
    "file" ∉ specMaterialTypes := by
  decide

/-- C1 (code bug): with `c1State` holding user "u"'s material, conversation,
mind map and quiz, every cited read/update/delete handler answers 404 to the
authenticated stranger "v" and leaves the state untouched — except
`POST /api/quizzes/:id/attempt`, which never checks `quiz.userId`: "v"'s
attempt against "u"'s quiz is answered 200 with the quiz's correct answers
and explanations, and the attempt is persisted. -/
theorem c1_quiz_attempt_ownership_bug :
    deleteMaterialRoute memIStorage c1State "v" "m1"
        = (DeleteMaterialRes.notFound, c1State) ∧
    conversationMessagesRoute memIStorage c1State "v" "c1"
        = MessagesRes.notFound ∧
    updateMindMapRoute memIStorage c1State 7 "v" "mm1"
        { title := some "stolen", nodes := none }
        = (UpdateMindMapRes.notFound, c1State) ∧
    (quizAttemptRoute memIStorage c1State "v" "q1"
        (fun qid => if qid = "qq1" then some "B" else none) "a1" 9).1
      = QuizAttemptRes.ok
          { attempt := c1Attempt,
            results := [{ questionId := "qq1", userAnswer := some "B",
                          correctAnswer := "A", isCorrect := false,
                          explanation := "basic" }] } ∧
    (quizAttemptRoute memIStorage c1State "v" "q1"
        (fun qid => if qid = "qq1" then some "B" else none) "a1" 9).1.status
      = 200 ∧
    mapGet (quizAttemptRoute memIStorage c1State "v" "q1"
        (fun qid => if qid = "qq1" then some "B" else none) "a1" 9).2.quizAttempts
        "a1"
      = some c1Attempt := by
  decide

/-- C2: for every stored quiz and every submitted answer map, the attempt
handler returns and persists a `score` equal to the number of questions `q`
with `answers[q.id]` string-equal to `q.correctAnswer`, and
`totalQuestions` equal to the number of questions — in both storage
implementations; in particular an all-wrong submission scores 0. -/
theorem c2_quiz_attempt_score_correct
    (s : MemStorage) (d : DatabaseStorage) (userId id rid : String) (now : Nat)
    (answers : String → Option String) (qm qd : Quiz)
    (hu : ¬ userId = "")
    (hm : MemStorage.getQuiz s id = some qm)
    (hd : DatabaseStorage.getQuiz d id = some qd)
    (hfresh : DatabaseStorage.getQuizAttempt d rid = none) :
    (∃ r, (quizAttemptRoute memIStorage s userId id answers rid now).1
        = QuizAttemptRes.ok r ∧
      r.attempt.score
        = qm.questions.countP (fun q => answers q.id == some q.correctAnswer) ∧
      r.attempt.totalQuestions = qm.questions.length ∧
      MemStorage.getQuizAttempt
          (quizAttemptRoute memIStorage s userId id answers rid now).2 rid
        = some r.attempt) ∧
    (∃ r, (quizAttemptRoute dbIStorage d userId id answers rid now).1
        = QuizAttemptRes.ok r ∧
      r.attempt.score
        = qd.questions.countP (fun q => answers q.id == some q.correctAnswer) ∧
      r.attempt.totalQuestions = qd.questions.length ∧
      DatabaseStorage.getQuizAttempt
          (quizAttemptRoute dbIStorage d userId id answers rid now).2 rid
        = some r.attempt) := by
  constructor
  · simp only [quizAttemptRoute, memIStorage, hm, if_neg hu,
      MemStorage.createQuizAttempt, MemStorage.getQuizAttempt]
    refine ⟨_, rfl, ?_, rfl, ?_⟩
    · rw [length_filter_map]
    · exact mapGet_mapSet_self _ _ _
  · simp only [quizAttemptRoute, dbIStorage, hd, if_neg hu,
      DatabaseStorage.createQuizAttempt, DatabaseStorage.getQuizAttempt]
    refine ⟨_, rfl, ?_, rfl, ?_⟩
    · rw [length_filter_map]
    · rw [find_append_of_none _ hfresh, find_cons_true _ (by simp)]

/-- C2 witness: the spec's all-wrong scenario on a concrete two-question
quiz — every hypothesis of the scoring theorem holds and the returned and
persisted attempt has `score = 0` (the count of matches) and
`totalQuestions = 2`. -/
theorem c2_quiz_attempt_score_witness :
    (¬ "v" = "") ∧
    MemStorage.getQuiz c2MemState "qz" = some c2Quiz ∧
    DatabaseStorage.getQuiz c2DbState "qz" = some c2Quiz ∧
    DatabaseStorage.getQuizAttempt c2DbState "at1" = none ∧
    c2Quiz.questions.countP
        (fun q => (fun _ => some "Z") q.id == some q.correctAnswer) = 0 ∧
    ((∃ r, (quizAttemptRoute memIStorage c2MemState "v" "qz"
          (fun _ => some "Z") "at1" 5).1 = QuizAttemptRes.ok r ∧
        r.attempt.score = c2Quiz.questions.countP
          (fun q => (fun _ => some "Z") q.id == some q.correctAnswer) ∧
        r.attempt.totalQuestions = c2Quiz.questions.length ∧
        MemStorage.getQuizAttempt
            (quizAttemptRoute memIStorage c2MemState "v" "qz"
              (fun _ => some "Z") "at1" 5).2 "at1"
          = some r.attempt) ∧
      (∃ r, (quizAttemptRoute dbIStorage c2DbState "v" "qz"
          (fun _ => some "Z") "at1" 5).1 = QuizAttemptRes.ok r ∧
        r.attempt.score = c2Quiz.questions.countP
          (fun q => (fun _ => some "Z") q.id == some q.correctAnswer) ∧
        r.attempt.totalQuestions = c2Quiz.questions.length ∧
        DatabaseStorage.getQuizAttempt
            (quizAttemptRoute dbIStorage c2DbState "v" "qz"
              (fun _ => some "Z") "at1" 5).2 "at1"
          = some r.attempt)) :=
  ⟨by decide, by decide, by decide, by decide, by decide,
   c2_quiz_attempt_score_correct c2MemState c2DbState "v" "qz" "at1" 5
     (fun _ => some "Z") c2Quiz c2Quiz (by decide) (by decide) (by decide)
     (by decide)⟩

/-- C3: login answers 200 with the password-stripped user iff a user with
the supplied username is found in storage and the slow-hash comparison of
the supplied password against the stored hash matches; in every other case
it answers 401 with the same generic "Invalid credentials" body, regardless
of whether the user was missing or the password wrong. -/
theorem c3_login_iff (f : ScryptFn) (useJwt : Bool) (sign : String → String)
    (s : MemStorage) (username password : String) :
    ((loginRoute memIStorage s f useJwt sign username password).status = 200 ↔
      ∃ user, MemStorage.getUserByUsername s username = some user ∧
        comparePasswords f password user.password = true) ∧
    (∀ user, MemStorage.getUserByUsername s username = some user →
      comparePasswords f password user.password = true →
      loginRoute memIStorage s f useJwt sign username password
        = LoginRes.ok (stripPassword user)
            (if useJwt then some (sign user.id) else none)) ∧
    ((loginRoute memIStorage s f useJwt sign username password).status ≠ 200 →
      loginRoute memIStorage s f useJwt sign username password
        = LoginRes.invalidCredentials) ∧
    LoginRes.errorBody LoginRes.invalidCredentials
      = some "Invalid credentials" := by
  refine ⟨⟨?_, ?_⟩, ?_, ?_, rfl⟩
  · intro h
    cases hf : MemStorage.getUserByUsername s username with
    | none => simp [loginRoute, memIStorage, hf, LoginRes.status] at h
    | some user =>
      by_cases hc : comparePasswords f password user.password
      · exact ⟨user, rfl, hc⟩
      · simp [loginRoute, memIStorage, hf, hc, LoginRes.status] at h
  · rintro ⟨user, hf, hc⟩
    simp [loginRoute, memIStorage, hf, hc, LoginRes.status]
  · intro user hf hc
    simp [loginRoute, memIStorage, hf, hc]
  · intro h
    cases hf : MemStorage.getUserByUsername s username with
    | none => simp [loginRoute, memIStorage, hf]
    | some user =>
      by_cases hc : comparePasswords f password user.password
      · exfalso
        apply h
        simp [loginRoute, memIStorage, hf, hc, LoginRes.status]
      · simp [loginRoute, memIStorage, hf, hc]

/-- C3 witness: against `c3State` (user "alice" stored by the register
handler), the right password logs in with 200 and both failure modes — wrong
password, unknown username — produce the identical generic 401 response. -/
theorem c3_login_witness :
    ((loginRoute memIStorage c3State scrypt0 true
        (fun uid => String.append "token-" uid) "alice" "correct horse").status
      = 200) ∧
    (loginRoute memIStorage c3State scrypt0 true
        (fun uid => String.append "token-" uid) "alice" "wrong")
      = LoginRes.invalidCredentials ∧
    (loginRoute memIStorage c3State scrypt0 true
        (fun uid => String.append "token-" uid) "bob" "correct horse")
      = LoginRes.invalidCredentials :=
  ⟨(c3_login_iff scrypt0 true (fun uid => String.append "token-" uid) c3State
      "alice" "correct horse").1.mpr
     ⟨{ id := "u1", username := "alice",
        password := hashPassword scrypt0 salt0 "correct horse",
        email := "alice@example.com", role := "student", plan := "free",
        language := "en", createdAt := 0 }, by decide, by decide⟩,
   (c3_login_iff scrypt0 true (fun uid => String.append "token-" uid) c3State
      "alice" "wrong").2.2.1 (by decide),
   (c3_login_iff scrypt0 true (fun uid => String.append "token-" uid) c3State
      "bob" "correct horse").2.2.1 (by decide)⟩

/-- C7: `updateMindMap` applies exactly the supplied partial fields
(`title`/`nodes`), refreshes `updatedAt` to the mutation time, and leaves
`id`, `userId`, `createdAt`, `materialIds` and any field absent from the
update unchanged — in both the in-memory and the database-backed
implementation, both in the returned record and in the stored one. -/
theorem c7_update_mindmap_frame (s : MemStorage) (d : DatabaseStorage)
    (now : Nat) (id : String) (u : MindMapUpdates) (mm mmd : MindMap)
    (hm : MemStorage.getMindMap s id = some mm)
    (hd : DatabaseStorage.getMindMap d id = some mmd) :
    ((MemStorage.updateMindMap s now id u).1
        = some { mm with title := u.title.getD mm.title,
                         nodes := u.nodes.getD mm.nodes, updatedAt := now } ∧
      MemStorage.getMindMap (MemStorage.updateMindMap s now id u).2 id
        = some { mm with title := u.title.getD mm.title,
                         nodes := u.nodes.getD mm.nodes, updatedAt := now }) ∧
    ((DatabaseStorage.updateMindMap d now id u).1
        = some { mmd with title := u.title.getD mmd.title,
                          nodes := u.nodes.getD mmd.nodes, updatedAt := now } ∧
      DatabaseStorage.getMindMap (DatabaseStorage.updateMindMap d now id u).2 id
        = some { mmd with title := u.title.getD mmd.title,
                          nodes := u.nodes.getD mmd.nodes, updatedAt := now }) := by
  constructor
  · constructor
    · simp only [MemStorage.updateMindMap, MemStorage.getMindMap] at hm ⊢
      rw [hm]
    · simp only [MemStorage.updateMindMap, MemStorage.getMindMap] at hm ⊢
      rw [hm]
      exact mapGet_mapSet_self _ _ _
  · constructor
    · simp only [DatabaseStorage.updateMindMap, DatabaseStorage.getMindMap]
        at hd ⊢
      rw [hd]
      rfl
    · simp only [DatabaseStorage.updateMindMap, DatabaseStorage.getMindMap]
        at hd ⊢
      rw [find_map_update d.mindMaps MindMap.id id
        (fun m => { m with title := u.title.getD m.title,
                           nodes := u.nodes.getD m.nodes, updatedAt := now })
        (fun m => rfl), hd]
      rfl

/-- C7 witness: a concrete mind map updated with only a new title keeps its
`id`, `userId`, `createdAt`, `materialIds` and `nodes`, and gets
`updatedAt = 7`, in both implementations. -/
theorem c7_update_mindmap_frame_witness :
    MemStorage.getMindMap c7MemState "mm1" = some c7Map ∧
    DatabaseStorage.getMindMap c7DbState "mm1" = some c7Map ∧
    (((MemStorage.updateMindMap c7MemState 7 "mm1" c7Upd).1
        = some { c7Map with title := c7Upd.title.getD c7Map.title,
                            nodes := c7Upd.nodes.getD c7Map.nodes,
                            updatedAt := 7 } ∧
      MemStorage.getMindMap
          (MemStorage.updateMindMap c7MemState 7 "mm1" c7Upd).2 "mm1"
        = some { c7Map with title := c7Upd.title.getD c7Map.title,
                            nodes := c7Upd.nodes.getD c7Map.nodes,
                            updatedAt := 7 }) ∧
    ((DatabaseStorage.updateMindMap c7DbState 7 "mm1" c7Upd).1
        = some { c7Map with title := c7Upd.title.getD c7Map.title,
                            nodes := c7Upd.nodes.getD c7Map.nodes,
                            updatedAt := 7 } ∧
      DatabaseStorage.getMindMap
          (DatabaseStorage.updateMindMap c7DbState 7 "mm1" c7Upd).2 "mm1"
        = some { c7Map with title := c7Upd.title.getD c7Map.title,
                            nodes := c7Upd.nodes.getD c7Map.nodes,
                            updatedAt := 7 })) :=
  ⟨by decide, by decide,
   c7_update_mindmap_frame c7MemState c7DbState 7 "mm1" c7Upd c7Map c7Map
     (by decide) (by decide)⟩

theorem string_data_append (a b : String) : (a ++ b).data = a.data ++ b.data :=
  rfl

/-- C8: the user record created by `POST /api/register` stores
`hex(scrypt(password, salt)) + "." + hex(salt)` — the scrypt-derived hex
hash joined by a dot with the hex salt — and therefore never the plaintext
password: the stored value always contains a ".", so it differs from every
plaintext that does not (`f` abstracts the scrypt derivation, `saltBytes`
the `randomBytes(16)` result). -/
theorem c8_register_password_hashed (f : ScryptFn) (saltBytes : List Byte)
    (s : MemStorage) (body : InsertUser) (rid : String) (now : Nat)
    (useJwt : Bool) (sign : String → String)
    (hU : MemStorage.getUserByUsername s body.username = none)
    (hE : MemStorage.getUserByEmail s body.email = none)
    (hdot : '.' ∉ body.password.data) :
    ∃ user,
      mapGet (registerRoute memIStorage s f saltBytes useJwt sign
          body rid now).2.users rid = some user ∧
      user.password
        = hexEncode (f body.password (hexEncode saltBytes)) ++ "."
            ++ hexEncode saltBytes ∧
      user.password ≠ body.password := by
  simp only [registerRoute, memIStorage, hU, hE, MemStorage.createUser]
  refine ⟨_, mapGet_mapSet_self _ _ _, rfl, ?_⟩
  intro hcontra
  apply hdot
  rw [← hcontra]
  show '.' ∈ (hashPassword f saltBytes body.password).data
  unfold hashPassword
  rw [string_data_append, string_data_append]
  exact List.mem_append.mpr
    (Or.inl (List.mem_append.mpr (Or.inr (by decide))))

/-- C8 witness: registering "alice" with password "hunter2" on an empty
store yields a stored password equal to the dot-joined hash format and
different from "hunter2". -/
theorem c8_register_password_hashed_witness :
    MemStorage.getUserByUsername memEmpty "alice" = none ∧
    MemStorage.getUserByEmail memEmpty "alice@example.com" = none ∧
    '.' ∉ "hunter2".data ∧
    (∃ user,
      mapGet (registerRoute memIStorage memEmpty scrypt0 salt0 true
          (fun uid => String.append "token-" uid)
          { username := "alice", password := "hunter2",
            email := "alice@example.com", role := none, plan := none,
            language := none } "u9" 4).2.users "u9" = some user ∧
      user.password
        = hexEncode (scrypt0 "hunter2" (hexEncode salt0)) ++ "."
            ++ hexEncode salt0 ∧
      user.password ≠ "hunter2") :=
  ⟨by decide, by decide, by decide,
   c8_register_password_hashed scrypt0 salt0 memEmpty
     { username := "alice", password := "hunter2",
       email := "alice@example.com", role := none, plan := none,
       language := none } "u9" 4 true (fun uid => String.append "token-" uid)
     (by decide) (by decide) (by decide)⟩

/-- C4 counterexample: with the gateway failing (upstream 502 and body), the
Express `POST /api/quizzes/generate` handler answers 400 carrying the thrown
gateway message — its catch clause maps every error to `res.status(400)` —
not the upstream-dependency 500 the claim requires. -/
theorem c4_upstream_error_counterexample :
    (quizzesGenerateRoute memIStorage memEmpty
        (GatewayResult.httpError 502 "Bad Gateway") "u" "Biology" "medium" []
        (fun _ => []) "qz1" 0).1
      = GenerateQuizRes.badRequest "OpenRouter API error: 502 - Bad Gateway" ∧
    (quizzesGenerateRoute memIStorage memEmpty
        (GatewayResult.httpError 502 "Bad Gateway") "u" "Biology" "medium" []
        (fun _ => []) "qz1" 0).1.status = 400 ∧
    (quizzesGenerateRoute memIStorage memEmpty
        (GatewayResult.httpError 502 "Bad Gateway") "u" "Biology" "medium" []
        (fun _ => []) "qz1" 0).1.status ≠ 500 := by
  decide

/-- C4 (amended): when the upstream call fails, the gateway client raises an
error carrying the upstream HTTP status and body; the Express generation
endpoints (`/api/quizzes/generate`, `/api/mindmaps/generate`) surface that
as HTTP 400 with the error message — their catch-all treats it like a
validation failure — while the standalone serverless quiz generator surfaces
it as HTTP 500. -/
theorem c4_upstream_error_amended (gwStatus : Nat) (gwBody : String)
    (s : MemStorage) (userId topic difficulty : String)
    (materialIds : List String) (parseQuiz : String → List Question)
    (parseMindMap : String → Json) (rid : String) (now : Nat)
    (hu : ¬ userId = "") (ht : ¬ topic = "") :
    chatCall (GatewayResult.httpError gwStatus gwBody)
      = Except.error
          ("OpenRouter API error: " ++ toString gwStatus ++ " - " ++ gwBody) ∧
    (quizzesGenerateRoute memIStorage s
        (GatewayResult.httpError gwStatus gwBody) userId topic difficulty
        materialIds parseQuiz rid now).1
      = GenerateQuizRes.badRequest
          ("OpenRouter API error: " ++ toString gwStatus ++ " - " ++ gwBody) ∧
    (quizzesGenerateRoute memIStorage s
        (GatewayResult.httpError gwStatus gwBody) userId topic difficulty
        materialIds parseQuiz rid now).1.status = 400 ∧
    (mindmapsGenerateRoute memIStorage s
        (GatewayResult.httpError gwStatus gwBody) userId topic
        materialIds parseMindMap rid now).1.status = 400 ∧
    (apiQuizzesGenerate (GatewayResult.httpError gwStatus gwBody) "POST"
        (some topic) difficulty materialIds parseQuiz).status = 500 := by
  refine ⟨rfl, ?_, ?_, ?_, ?_⟩ <;>
    simp [quizzesGenerateRoute, mindmapsGenerateRoute, apiQuizzesGenerate,
      chatCall, hu, ht, jsOrNoneStr, GenerateQuizRes.status,
      GenerateMindMapRes.status, ServerlessQuizRes.status]

/-- C4 witness for the amended statement at a concrete upstream failure. -/
theorem c4_upstream_error_amended_witness :
    (¬ "u" = "") ∧ (¬ "Biology" = "") ∧
    (chatCall (GatewayResult.httpError 502 "upstream out")
      = Except.error
          ("OpenRouter API error: " ++ toString 502 ++ " - " ++ "upstream out") ∧
    (quizzesGenerateRoute memIStorage memEmpty
        (GatewayResult.httpError 502 "upstream out") "u" "Biology" "hard"
        ["m1"] (fun _ => []) "qz1" 0).1
      = GenerateQuizRes.badRequest
          ("OpenRouter API error: " ++ toString 502 ++ " - " ++ "upstream out") ∧
    (quizzesGenerateRoute memIStorage memEmpty
        (GatewayResult.httpError 502 "upstream out") "u" "Biology" "hard"
        ["m1"] (fun _ => []) "qz1" 0).1.status = 400 ∧
    (mindmapsGenerateRoute memIStorage memEmpty
        (GatewayResult.httpError 502 "upstream out") "u" "Biology"
        ["m1"] (fun _ => Json.null) "qz1" 0).1.status = 400 ∧
    (apiQuizzesGenerate (GatewayResult.httpError 502 "upstream out") "POST"
        (some "Biology") "hard" ["m1"] (fun _ => [])).status = 500) :=
  ⟨by decide, by decide,
   c4_upstream_error_amended 502 "upstream out" memEmpty "u" "Biology" "hard"
     ["m1"] (fun _ => []) (fun _ => Json.null) "qz1" 0 (by decide) (by decide)⟩

/-- C9 counterexample: one identical `createMaterial` call — same generated
id and same timestamp, so "up to ids and timestamps" is already accounted
for — with a present-but-empty `content` is observably different on the two
implementations: `MemStorage` returns `content = null` (it normalises with
`material.content || null`) while `DatabaseStorage` returns `content = ""`
(the insert passes the value through).  So the implementations are not
observationally equivalent over the `IStorage` interface. -/
theorem c9_storage_equivalence_counterexample :
    (memMaterialRun memEmpty
        [MaterialOp.create "m1" 5
          { filename := "f.pdf", type := "pdf", content := some "",
            metadata := none, userId := "u" }]).1
      ≠ (dbMaterialRun dbEmpty
        [MaterialOp.create "m1" 5
          { filename := "f.pdf", type := "pdf", content := some "",
            metadata := none, userId := "u" }]).1 ∧
    (memMaterialRun memEmpty
        [MaterialOp.create "m1" 5
          { filename := "f.pdf", type := "pdf", content := some "",
            metadata := none, userId := "u" }]).1
      = [MaterialOut.created
          { id := "m1", userId := "u", filename := "f.pdf", type := "pdf",
            content := none, metadata := none, uploadedAt := 5 }] ∧
    (dbMaterialRun dbEmpty
        [MaterialOp.create "m1" 5
          { filename := "f.pdf", type := "pdf", content := some "",
            metadata := none, userId := "u" }]).1
      = [MaterialOut.created
          { id := "m1", userId := "u", filename := "f.pdf", type := "pdf",
            content := some "", metadata := none, uploadedAt := 5 }] := by
  decide

/-- C9 (amended): over the material sub-interface, the two implementations
are observationally equivalent — identical outputs for every operation
sequence, given the same generated ids and timestamps — provided the inputs
avoid what the counterexample exploits: each created id is fresh and no
optional field is supplied as a present-but-falsy value. -/
theorem c9_storage_equivalence_amended (ops : List MaterialOp)
    (s : MemStorage) (d : DatabaseStorage)
    (hrel : materialsRel s.materials d.materials)
    (hgood : goodMaterialOps s ops = true) :
    (memMaterialRun s ops).1 = (dbMaterialRun d ops).1 ∧
      materialsRel (memMaterialRun s ops).2.materials
        (dbMaterialRun d ops).2.materials :=
  material_run_sim ops s d hrel hgood

/-- C9 witness: a concrete create/get/list/delete/get sequence with a
non-falsy payload runs identically on both implementations. -/
theorem c9_storage_equivalence_amended_witness :
    materialsRel memEmpty.materials dbEmpty.materials ∧
    goodMaterialOps memEmpty
        [MaterialOp.create "m1" 1
          { filename := "a.txt", type := "text", content := some "hello",
            metadata := some (Json.obj [("size", Json.num 5)]),
            userId := "u" },
         MaterialOp.get "m1", MaterialOp.listByUser "u",
         MaterialOp.delete "m1", MaterialOp.get "m1"] = true ∧
    ((memMaterialRun memEmpty
        [MaterialOp.create "m1" 1
          { filename := "a.txt", type := "text", content := some "hello",
            metadata := some (Json.obj [("size", Json.num 5)]),
            userId := "u" },
         MaterialOp.get "m1", MaterialOp.listByUser "u",
         MaterialOp.delete "m1", MaterialOp.get "m1"]).1
      = (dbMaterialRun dbEmpty
        [MaterialOp.create "m1" 1
          { filename := "a.txt", type := "text", content := some "hello",
            metadata := some (Json.obj [("size", Json.num 5)]),
            userId := "u" },
         MaterialOp.get "m1", MaterialOp.listByUser "u",
         MaterialOp.delete "m1", MaterialOp.get "m1"]).1 ∧
      materialsRel
        (memMaterialRun memEmpty
          [MaterialOp.create "m1" 1
            { filename := "a.txt", type := "text", content := some "hello",
              metadata := some (Json.obj [("size", Json.num 5)]),
              userId := "u" },
           MaterialOp.get "m1", MaterialOp.listByUser "u",
           MaterialOp.delete "m1", MaterialOp.get "m1"]).2.materials
        (dbMaterialRun dbEmpty
          [MaterialOp.create "m1" 1
            { filename := "a.txt", type := "text", content := some "hello",
              metadata := some (Json.obj [("size", Json.num 5)]),
              userId := "u" },
           MaterialOp.get "m1", MaterialOp.listByUser "u",
           MaterialOp.delete "m1", MaterialOp.get "m1"]).2.materials) :=
  ⟨⟨rfl, by simp [memEmpty]⟩, by decide,
   c9_storage_equivalence_amended
     [MaterialOp.create "m1" 1
        { filename := "a.txt", type := "text", content := some "hello",
          metadata := some (Json.obj [("size", Json.num 5)]),
          userId := "u" },
      MaterialOp.get "m1", MaterialOp.listByUser "u",
      MaterialOp.delete "m1", MaterialOp.get "m1"]
     memEmpty dbEmpty ⟨rfl, by simp [memEmpty]⟩ (by decide)⟩
